import Mathlib

/-!
# ttyhook: the intercepted `ioctl` and its trigger script

A shallow embedding of `src/ttyhook.c`.  The two functions of that file,
`trigger` and `ioctl`, are translated statement by statement.  Their static
variables (`script_file_size`, `script_file_value`, `current_tiocm`) become
an explicit state that is threaded through the calls; everything the process
obtains from outside (the environment variable, the exit status of the
script, the answer of the real `ioctl`) is read from a `World`.  A failing
`assert` ends the process, which the embedding records as `Outcome.aborted`.

Conventions.

* A C `int` that is used as a bit mask (`current_tiocm`, `*argp`, `changes`)
  is the natural number of its 32 bit two's complement pattern, so `^`, `&`
  and `|` are the bitwise operations of `Nat`, and `~x` is `x ^ 0xFFFFFFFF`.
* A C `int` that is used as a number (a return value, a wait status) is an
  `Int`.
* A C string is a `List Char` that ends at its first `NUL` (or at the end of
  the list).
* Every call records what it did to the outside in a trace of `Event`s, in
  program order.
-/

namespace TtyHook

/-! ## Constants of the system headers -/

/-- Request code `TIOCMGET` of `asm-generic/ioctls.h`. -/
def TIOCMGET : Nat := 0x5415

/-- Request code `TIOCMSET` of `asm-generic/ioctls.h`. -/
def TIOCMSET : Nat := 0x5418

/-- Modem line bit `TIOCM_DTR` of `asm-generic/termios.h`. -/
def TIOCM_DTR : Nat := 0x002

/-- Modem line bit `TIOCM_RTS` of `asm-generic/termios.h`. -/
def TIOCM_RTS : Nat := 0x004

/-- Error number `EINVAL` of `asm-generic/errno-base.h`. -/
def EINVAL : Int := 22

/-- Bitwise complement `~x` of a 32 bit `int`, on bit patterns. -/
def c_not (x : Nat) : Nat := x ^^^ 0xFFFFFFFF

/-- Macro `WEXITSTATUS(status)` of glibc: `((status) & 0xff00) >> 8`, on the
32 bit pattern of `status`. -/
def WEXITSTATUS (status : Int) : Int :=
  Int.ofNat (((status % 4294967296).toNat &&& 0xff00) >>> 8)

/-! ## Data model -/

/-- The enumeration `ttyhook_action_t` (lines 24-30). -/
inductive ttyhook_action_t where
  | TTYHOOK_NONE
  | TTYHOOK_RTS_ON
  | TTYHOOK_RTS_OFF
  | TTYHOOK_DTR_ON
  | TTYHOOK_DTR_OFF
  deriving DecidableEq, Repr

open ttyhook_action_t

/-- How a call ends: it returns a value, or an `assert` fails and the process
is aborted. -/
inductive Outcome (α : Type) where
  | returned (v : α)
  | aborted
  deriving DecidableEq, Repr

/-- The messages the hook writes to `stderr`, one constructor per `fprintf`. -/
inductive LogMsg where
  | no_value
  | invalid_value
  | empty_value
  | nonzero_status (exit_status : Int)
  | on_cancelled
  | off_not_cancellable
  deriving DecidableEq, Repr

/-- What a call does to the outside world, in program order. -/
inductive Event where
  | trigger (action : ttyhook_action_t)
  | getenv
  | log (msg : LogMsg)
  | system (command : List Char)
  | real (fd : Int) (request : Nat) (arg : Nat)
  deriving DecidableEq, Repr

/-- What the process reads from outside during one call of the hook.

* `getenv` is the value of `TTYHOOK_SCRIPT` (`none` for `NULL`);
* `system command` is the raw status `system` returns for `command`;
* `ioctl_real fd request arg` is the answer of the real `ioctl` found by
  `dlsym(RTLD_NEXT, "ioctl")`, for the request `request` on the argument
  `arg`: the value it returns and the value of `*argp` after the call.  The
  hook reads `*argp` after the call for `TIOCMGET` and for `TIOCMSET` alike
  (lines 122 and 163).  The kernel takes a `const int *` for `TIOCMSET` and
  does not write to it; a theorem that needs this says so in a hypothesis,
  `(w.ioctl_real fd TIOCMSET arg).2 = arg`.

The symbol lookup itself is outside the embedding: the resolved function is
given. -/
structure World where
  getenv : Option (List Char)
  system : List Char → Int
  ioctl_real : Int → Nat → Nat → Int × Nat

/-! ## `trigger` (lines 33-99) -/

/-- The terminating byte of a C string. -/
def NUL : Char := Char.ofNat 0

/-- The characters of the C string that starts a block of memory. -/
def c_str (mem : List Char) : List Char := mem.takeWhile (fun c => c != NUL)

/-- Library function `strnlen(s, maxlen)`. -/
def strnlen (s : List Char) (maxlen : Nat) : Nat := min (c_str s).length maxlen

/-- Library function `memcpy(dest, src, n)`: the first `n` bytes of `dest`
are replaced by those of `src`. -/
def memcpy (dest src : List Char) (n : Nat) : List Char := src.take n ++ dest.drop n

/-- Library call `snprintf(out, size, "%s" suffix, s)`: the text written to
`out`, at most `size - 1` characters. -/
def snprintf (size : Nat) (s suffix : List Char) : List Char :=
  (c_str s ++ suffix).take (size - 1)

/-- The static variables of `trigger` (lines 36-37). -/
structure TriggerState where
  script_file_size : Nat
  script_file_value : List Char
  deriving DecidableEq, Repr

/-- What one call of `trigger` yields: its outcome, the static variables
after it, and what it did. -/
structure TriggerResult where
  outcome : Outcome Bool
  state : TriggerState
  trace : List Event
  deriving DecidableEq, Repr

/-- Lines 39-61 of `trigger`: the script path is read from the environment
when `script_file_size` is zero.  The first component is `some o` when the
function ends here with outcome `o`, and `none` when it goes on to build the
command. -/
def trigger_load (w : World) (s : TriggerState) :
    Option (Outcome Bool) × TriggerState × List Event :=
  if s.script_file_size = 0 then
    match w.getenv with
    | none => (some (Outcome.returned false), s, [Event.getenv, Event.log LogMsg.no_value])
    | some value =>
      let s1 : TriggerState := { s with script_file_size := strnlen value 1024 }
      if s1.script_file_size = 1024 then
        (some (Outcome.returned false), s1, [Event.getenv, Event.log LogMsg.invalid_value])
      else if s1.script_file_size = 0 then
        (some (Outcome.returned false), s1, [Event.getenv, Event.log LogMsg.empty_value])
      else
        let s2 : TriggerState :=
          { s1 with script_file_value := memcpy s1.script_file_value value s1.script_file_size }
        if s2.script_file_value.getD s2.script_file_size NUL = NUL then
          (none, s2, [Event.getenv])
        else
          (some Outcome.aborted, s2, [Event.getenv])
  else
    (none, s, [])

/-- The `switch` of lines 66-90: the command line for an action, `none` for
the `default` branch. -/
def script_arguments (script_file_value : List Char) : ttyhook_action_t → Option (List Char)
  | TTYHOOK_RTS_ON => some (snprintf 2048 script_file_value (String.toList " 'rts_on'"))
  | TTYHOOK_RTS_OFF => some (snprintf 2048 script_file_value (String.toList " 'rts_off'"))
  | TTYHOOK_DTR_ON => some (snprintf 2048 script_file_value (String.toList " 'dtr_on'"))
  | TTYHOOK_DTR_OFF => some (snprintf 2048 script_file_value (String.toList " 'dtr_off'"))
  | TTYHOOK_NONE => none

/-- The function `trigger` (lines 33-99). -/
def trigger (w : World) (s : TriggerState) (action : ttyhook_action_t) : TriggerResult :=
  if action = TTYHOOK_NONE then
    { outcome := Outcome.aborted, state := s, trace := [Event.trigger action] }
  else
    match trigger_load w s with
    | (some o, s1, tr) => { outcome := o, state := s1, trace := Event.trigger action :: tr }
    | (none, s1, tr) =>
      if 0 < s1.script_file_size then
        match script_arguments s1.script_file_value action with
        | none => { outcome := Outcome.aborted, state := s1, trace := Event.trigger action :: tr }
        | some command =>
          let result := w.system command
          let exit_status := WEXITSTATUS result
          if exit_status ≠ 0 then
            { outcome := Outcome.returned false, state := s1,
              trace := Event.trigger action :: tr ++
                [Event.system command, Event.log (LogMsg.nonzero_status exit_status)] }
          else
            { outcome := Outcome.returned true, state := s1,
              trace := Event.trigger action :: tr ++ [Event.system command] }
      else
        { outcome := Outcome.aborted, state := s1, trace := Event.trigger action :: tr }

/-! ## `ioctl` (lines 103-178) -/

/-- The static variables of the hook: `current_tiocm` of `ioctl` (line 119)
and those of `trigger`. -/
structure HookState where
  current_tiocm : Nat
  trigger_state : TriggerState
  deriving DecidableEq, Repr

/-- The state when the process starts: static storage is zero. -/
def HookState.init : HookState :=
  { current_tiocm := 0,
    trigger_state := { script_file_size := 0, script_file_value := List.replicate 1024 NUL } }

/-- What one call of the hook yields: its outcome, the static variables after
it, the value of `*argp` after it, and what it did. -/
structure IoctlResult where
  outcome : Outcome Int
  state : HookState
  argp : Nat
  trace : List Event
  deriving DecidableEq, Repr

/-- Lines 127-152 of `ioctl`: the action computed from the tracked bit mask
and the requested one; `none` when one of the assertions fails. -/
def ioctl_classify (current_tiocm arg : Nat) : Option ttyhook_action_t :=
  let changes := current_tiocm ^^^ arg
  if changes &&& c_not (TIOCM_RTS ||| TIOCM_DTR) = 0 then
    let action := TTYHOOK_NONE
    let rts : Option ttyhook_action_t :=
      if changes &&& TIOCM_RTS ≠ 0 then
        if current_tiocm &&& TIOCM_RTS = 0 then
          if action = TTYHOOK_NONE then some TTYHOOK_RTS_ON else none
        else
          if action = TTYHOOK_NONE then some TTYHOOK_RTS_OFF else none
      else some action
    match rts with
    | none => none
    | some action =>
      if changes &&& TIOCM_DTR ≠ 0 then
        if current_tiocm &&& TIOCM_DTR = 0 then
          if action = TTYHOOK_NONE then some TTYHOOK_DTR_ON else none
        else
          if action = TTYHOOK_NONE then some TTYHOOK_DTR_OFF else none
      else some action
  else none

/-- The function `ioctl` (lines 103-178), called in state `s` with the file
descriptor `fd`, the request `operation` and `arg` in `*argp`. -/
def ioctl (w : World) (s : HookState) (fd : Int) (operation : Nat) (arg : Nat) : IoctlResult :=
  if operation = TIOCMGET then
    let r := w.ioctl_real fd operation arg
    { outcome := Outcome.returned r.1, state := { s with current_tiocm := r.2 }, argp := r.2,
      trace := [Event.real fd operation arg] }
  else if operation = TIOCMSET ∧ s.current_tiocm ≠ 0 then
    match ioctl_classify s.current_tiocm arg with
    | none => { outcome := Outcome.aborted, state := s, argp := arg, trace := [] }
    | some action =>
      if action = TTYHOOK_RTS_ON ∨ action = TTYHOOK_DTR_ON then
        let t := trigger w s.trigger_state action
        match t.outcome with
        | Outcome.aborted =>
          { outcome := Outcome.aborted, state := { s with trigger_state := t.state },
            argp := arg, trace := t.trace }
        | Outcome.returned false =>
          { outcome := Outcome.returned EINVAL, state := { s with trigger_state := t.state },
            argp := arg, trace := t.trace ++ [Event.log LogMsg.on_cancelled] }
        | Outcome.returned true =>
          let r := w.ioctl_real fd operation arg
          { outcome := Outcome.returned r.1,
            state := { current_tiocm := r.2, trigger_state := t.state },
            argp := r.2, trace := t.trace ++ [Event.real fd operation arg] }
      else
        let r := w.ioctl_real fd operation arg
        if action = TTYHOOK_RTS_OFF ∨ action = TTYHOOK_DTR_OFF then
          let t := trigger w s.trigger_state action
          match t.outcome with
          | Outcome.aborted =>
            { outcome := Outcome.aborted,
              state := { current_tiocm := r.2, trigger_state := t.state },
              argp := r.2, trace := Event.real fd operation arg :: t.trace }
          | Outcome.returned false =>
            { outcome := Outcome.returned r.1,
              state := { current_tiocm := r.2, trigger_state := t.state },
              argp := r.2,
              trace := Event.real fd operation arg :: t.trace ++
                [Event.log LogMsg.off_not_cancellable] }
          | Outcome.returned true =>
            { outcome := Outcome.returned r.1,
              state := { current_tiocm := r.2, trigger_state := t.state },
              argp := r.2, trace := Event.real fd operation arg :: t.trace }
        else
          { outcome := Outcome.returned r.1, state := { s with current_tiocm := r.2 },
            argp := r.2, trace := [Event.real fd operation arg] }
  else if operation ≠ TIOCMGET ∧ operation ≠ TIOCMSET then
    let r := w.ioctl_real fd operation arg
    { outcome := Outcome.returned r.1, state := s, argp := r.2,
      trace := [Event.real fd operation arg] }
  else
    { outcome := Outcome.aborted, state := s, argp := arg, trace := [] }

/-! ## The reference classifier of the specification -/

/-- Position of the RTS bit in the bit mask: `TIOCM_RTS` is `1 << 2`. -/
def RTS_BIT : Nat := 2

/-- Position of the DTR bit in the bit mask: `TIOCM_DTR` is `1 << 1`. -/
def DTR_BIT : Nat := 1

/-- The transition classifier as section 4.5 of the specification words it,
over the 32 bits of the mask: fatal (`none`) if a bit other than RTS and DTR
differs between `old` and `new`; fatal if RTS and DTR both differ; the on
action of the one line that differs when its bit goes from 0 to 1, its off
action when it goes from 1 to 0; `TTYHOOK_NONE` if neither differs.  It is
the reference `ioctl_classify` is compared with. -/
def spec_classify (old new : Nat) : Option ttyhook_action_t :=
  let differs (i : Nat) : Bool := old.testBit i != new.testBit i
  if (List.range 32).any (fun i => i != RTS_BIT && i != DTR_BIT && differs i) then none
  else if differs RTS_BIT && differs DTR_BIT then none
  else if differs RTS_BIT then
    (if new.testBit RTS_BIT then some TTYHOOK_RTS_ON else some TTYHOOK_RTS_OFF)
  else if differs DTR_BIT then
    (if new.testBit DTR_BIT then some TTYHOOK_DTR_ON else some TTYHOOK_DTR_OFF)
  else some TTYHOOK_NONE

/-! ## Predicates on traces and states -/

/-- Whether an event is a call of `trigger`. -/
def Event.is_trigger : Event → Bool
  | Event.trigger _ => true
  | _ => false

/-- Whether an event is a call of the real `ioctl`. -/
def Event.is_real : Event → Bool
  | Event.real _ _ _ => true
  | _ => false

/-- The invariant of the static variables of `trigger`: as long as no script
path has been stored, the buffer still holds the zeros of static storage. -/
def trigger_inv (s : TriggerState) : Prop :=
  s.script_file_size = 0 → s.script_file_value = List.replicate 1024 NUL

/-! ## Sample worlds -/

/-- A world for concrete runs: `TTYHOOK_SCRIPT` is `script`, every command
ends with the raw status `status`, and the real `ioctl` returns `result`,
writing `lines` through the argument of a `TIOCMGET` and leaving any other
argument as it is. -/
def sample_world (script : Option String) (status result : Int) (lines : Nat) : World :=
  { getenv := script.map String.toList,
    system := fun _ => status,
    ioctl_real := fun _ request arg => (result, if request = TIOCMGET then lines else arg) }

/-- A world whose real `ioctl` returns 0 and writes `written` to `*argp`
whatever the request, `TIOCMSET` included; no script is configured. -/
def writing_world (written : Nat) : World :=
  { getenv := none,
    system := fun _ => 0,
    ioctl_real := fun _ _ _ => (0, written) }

/-- A state for concrete runs: the tracked bit mask is `current_tiocm` and no
script path has been stored yet. -/
def sample_state (current_tiocm : Nat) : HookState :=
  { HookState.init with current_tiocm := current_tiocm }

/-! ## Wait statuses -/

/-- Macro `WTERMSIG(status)` of glibc: `(status) & 0x7f`, on the 32 bit
pattern of `status`. -/
def WTERMSIG (status : Int) : Int :=
  Int.ofNat ((status % 4294967296).toNat &&& 0x7f)

/-- Macro `WIFEXITED(status)` of glibc: `WTERMSIG(status) == 0`. -/
def WIFEXITED (status : Int) : Bool := decide (WTERMSIG status = 0)

/-! ## The command line of the specification -/

/-- The token of an action as sections 4.3 and 6 of the specification list
them; `TTYHOOK_NONE` has none. -/
def action_token : ttyhook_action_t → Option String
  | TTYHOOK_RTS_ON => some "rts_on"
  | TTYHOOK_RTS_OFF => some "rts_off"
  | TTYHOOK_DTR_ON => some "dtr_on"
  | TTYHOOK_DTR_OFF => some "dtr_off"
  | TTYHOOK_NONE => none

/-- The command line as section 6 of the specification words it: the script
path, one space, and the token of the action between single quotes.  It is
the reference `script_arguments` is compared with. -/
def spec_command (path : List Char) (action : ttyhook_action_t) : Option (List Char) :=
  (action_token action).map
    (fun token => path ++ String.toList " " ++ String.toList "'" ++ String.toList token
      ++ String.toList "'")

/-! ## Sequences of calls -/

/-- The static variables of `trigger` after a sequence of calls, each with
the world it runs in. -/
def trigger_calls (s : TriggerState) : List (World × ttyhook_action_t) → TriggerState
  | [] => s
  | c :: rest => trigger_calls (trigger c.1 s c.2).state rest

/-- One call of the hook: the world it runs in and its arguments. -/
structure Call where
  world : World
  fd : Int
  operation : Nat
  arg : Nat

/-- The static variables of the hook after a sequence of calls. -/
def ioctl_calls (s : HookState) : List Call → HookState
  | [] => s
  | c :: rest => ioctl_calls (ioctl c.world s c.fd c.operation c.arg).state rest

/-- A stored script path: `script_file_size` is the length of `path`, between
1 and 1023, and the buffer holds `path` as a C string. -/
def stored (s : TriggerState) (path : List Char) : Prop :=
  s.script_file_size = path.length ∧ 0 < path.length ∧ path.length < 1024 ∧
    c_str s.script_file_value = path

/-! ## The test harness (`src/ttyhook_test.c`) -/

/-- Lines 49-75 of `main`: the bit mask the harness requests after it read
`tiocm`, for the toggle mode given on the command line. -/
def harness_toggle (toggle_rts toggle_dtr : Bool) (tiocm : Nat) : Nat :=
  let tiocm1 :=
    if toggle_rts then
      if tiocm &&& TIOCM_RTS = 0 then tiocm ||| TIOCM_RTS else tiocm &&& c_not TIOCM_RTS
    else tiocm
  if toggle_dtr then
    if tiocm1 &&& TIOCM_DTR = 0 then tiocm1 ||| TIOCM_DTR else tiocm1 &&& c_not TIOCM_DTR
  else tiocm1

/-- Whether an event is a call of `system`. -/
def Event.is_system : Event → Bool
  | Event.system _ => true
  | _ => false

/-- Whether an event is a call of `getenv`. -/
def Event.is_getenv : Event → Bool
  | Event.getenv => true
  | _ => false

/-- A value of `TTYHOOK_SCRIPT` of 1024 bytes, one more than the buffer can
take. -/
def long_value : String := String.mk (List.replicate 1024 'a')

/-- A configured script: `path` is already stored, or nothing is stored yet
and `TTYHOOK_SCRIPT` holds `path`, of 1 to 1023 bytes, for this call to
store. -/
def configured (w : World) (s : TriggerState) (path : List Char) : Prop :=
  stored s path ∨
    (s = HookState.init.trigger_state ∧
      ∃ value, w.getenv = some value ∧ c_str value = path ∧
        0 < path.length ∧ path.length < 1024)

/-! ## Bit masks -/

theorem and_two_pow_eq_zero_iff (x i : Nat) : x &&& 2 ^ i = 0 ↔ x.testBit i = false := by
  constructor
  · intro h
    have h1 : (x &&& 2 ^ i).testBit i = false := by rw [h]; exact Nat.zero_testBit i
    simpa [Nat.testBit_two_pow_self] using h1
  · intro h
    apply Nat.eq_of_testBit_eq
    intro j
    rw [Nat.testBit_and, Nat.testBit_two_pow, Nat.zero_testBit]
    by_cases hij : i = j
    · subst hij; simp [h]
    · simp [hij]

theorem and_rts_eq_zero_iff (x : Nat) : x &&& TIOCM_RTS = 0 ↔ x.testBit RTS_BIT = false :=
  and_two_pow_eq_zero_iff x 2

theorem and_dtr_eq_zero_iff (x : Nat) : x &&& TIOCM_DTR = 0 ↔ x.testBit DTR_BIT = false :=
  and_two_pow_eq_zero_iff x 1

theorem testBit_untracked (i : Nat) :
    (c_not (TIOCM_RTS ||| TIOCM_DTR)).testBit i = decide (i < 32 ∧ i ≠ RTS_BIT ∧ i ≠ DTR_BIT) := by
  by_cases hi : i < 32
  · interval_cases i <;> decide
  · have h1 : c_not (TIOCM_RTS ||| TIOCM_DTR) < 2 ^ i :=
      lt_of_lt_of_le (show c_not (TIOCM_RTS ||| TIOCM_DTR) < 2 ^ 32 by decide)
        (Nat.pow_le_pow_right (by decide) (Nat.le_of_not_lt hi))
    rw [Nat.testBit_lt_two_pow h1]
    simp [hi]

theorem and_untracked_eq_zero_iff (x : Nat) :
    x &&& c_not (TIOCM_RTS ||| TIOCM_DTR) = 0 ↔
      ∀ i, i < 32 → i ≠ RTS_BIT → i ≠ DTR_BIT → x.testBit i = false := by
  constructor
  · intro h i h1 h2 h3
    have h4 : (x &&& c_not (TIOCM_RTS ||| TIOCM_DTR)).testBit i = false := by
      rw [h]; exact Nat.zero_testBit i
    rw [Nat.testBit_and, testBit_untracked] at h4
    simpa [h1, h2, h3] using h4
  · intro h
    apply Nat.eq_of_testBit_eq
    intro i
    rw [Nat.testBit_and, testBit_untracked, Nat.zero_testBit]
    by_cases hc : i < 32 ∧ i ≠ RTS_BIT ∧ i ≠ DTR_BIT
    · simp [h i hc.1 hc.2.1 hc.2.2]
    · simp [hc]

/-! ## The classifier against its reference -/

theorem ioctl_classify_eq_spec (old new : Nat) :
    ioctl_classify old new = spec_classify old new := by
  have hR : ∀ x : Nat, x &&& TIOCM_RTS = 0 ↔ x.testBit RTS_BIT = false := and_rts_eq_zero_iff
  have hD : ∀ x : Nat, x &&& TIOCM_DTR = 0 ↔ x.testBit DTR_BIT = false := and_dtr_eq_zero_iff
  have hU := and_untracked_eq_zero_iff (old ^^^ new)
  by_cases hany : (old ^^^ new) &&& c_not (TIOCM_RTS ||| TIOCM_DTR) = 0
  · have hn : ¬ ((List.range 32).any
        (fun i => i != RTS_BIT && i != DTR_BIT && (old.testBit i != new.testBit i)) = true) := by
      intro hex
      rw [List.any_eq_true] at hex
      obtain ⟨i, hi, hp⟩ := hex
      have h5 := hU.1 hany i (List.mem_range.1 hi)
      simp only [Bool.and_eq_true, bne_iff_ne, ne_eq] at hp
      have h6 := h5 hp.1.1 hp.1.2
      rw [Nat.testBit_xor] at h6
      have h7 := hp.2
      cases h8 : old.testBit i <;> cases h9 : new.testBit i <;> simp_all
    simp only [ioctl_classify, spec_classify]
    rw [if_pos hany, if_neg hn]
    rcases Bool.eq_false_or_eq_true (old.testBit RTS_BIT) with h1 | h1 <;>
      rcases Bool.eq_false_or_eq_true (new.testBit RTS_BIT) with h2 | h2 <;>
      rcases Bool.eq_false_or_eq_true (old.testBit DTR_BIT) with h3 | h3 <;>
      rcases Bool.eq_false_or_eq_true (new.testBit DTR_BIT) with h4 | h4 <;>
      simp [hR, hD, Nat.testBit_xor, h1, h2, h3, h4]
  · have hy : (List.range 32).any
        (fun i => i != RTS_BIT && i != DTR_BIT && (old.testBit i != new.testBit i)) = true := by
      by_contra hno
      apply hany
      apply hU.2
      intro i h1 h2 h3
      rw [Nat.testBit_xor]
      by_contra h4
      apply hno
      rw [List.any_eq_true]
      refine ⟨i, List.mem_range.2 h1, ?_⟩
      simp only [Bool.and_eq_true, bne_iff_ne, ne_eq]
      refine ⟨⟨h2, h3⟩, ?_⟩
      intro h5
      rw [h5] at h4
      simp at h4
    simp only [ioctl_classify, spec_classify]
    rw [if_neg hany, if_pos hy]

/-! ## `trigger`: trace, termination, invariant -/

theorem trigger_load_trace (w : World) (s : TriggerState) :
    (trigger_load w s).2.2.filter Event.is_trigger = [] ∧
      (trigger_load w s).2.2.filter Event.is_real = [] := by
  unfold trigger_load
  split_ifs <;> first | (constructor <;> rfl) | skip
  cases w.getenv with
  | none => constructor <;> rfl
  | some value =>
    simp only
    split_ifs <;> constructor <;> rfl

theorem trigger_trace (w : World) (s : TriggerState) (action : ttyhook_action_t) :
    ∃ rest, (trigger w s action).trace = Event.trigger action :: rest ∧
      rest.filter Event.is_trigger = [] ∧ rest.filter Event.is_real = [] := by
  have hl := trigger_load_trace w s
  unfold trigger
  split_ifs with h1
  · exact ⟨[], rfl, rfl, rfl⟩
  · rcases hld : trigger_load w s with ⟨o, s1, tr⟩
    rw [hld] at hl
    simp only at hl
    cases o with
    | some o => exact ⟨tr, rfl, hl.1, hl.2⟩
    | none =>
      simp only
      split_ifs with h2
      · cases hsa : script_arguments s1.script_file_value action with
        | none => exact ⟨tr, rfl, hl.1, hl.2⟩
        | some command =>
          simp only
          split_ifs with h3
          · refine ⟨tr ++ [Event.system command, Event.log (LogMsg.nonzero_status _)], rfl, ?_, ?_⟩
            · rw [List.filter_append, hl.1]; rfl
            · rw [List.filter_append, hl.2]; rfl
          · refine ⟨tr ++ [Event.system command], rfl, ?_, ?_⟩
            · rw [List.filter_append, hl.1]; rfl
            · rw [List.filter_append, hl.2]; rfl
      · exact ⟨tr, rfl, hl.1, hl.2⟩

theorem memcpy_getD_zero (value : List Char) (n : Nat) :
    (memcpy (List.replicate 1024 NUL) value n).getD n NUL = NUL := by
  unfold memcpy
  rw [List.getD_append_right _ _ _ _ (List.length_take_le n value)]
  rw [List.getD_eq_getElem?_getD]
  cases h : ((List.replicate 1024 NUL).drop n)[n - (List.take n value).length]? with
  | none => rfl
  | some c =>
    have hm : c ∈ (List.replicate 1024 NUL).drop n := List.getElem?_mem h
    have hm2 : c ∈ List.replicate 1024 NUL := List.mem_of_mem_drop hm
    simpa using (List.eq_of_mem_replicate hm2)

theorem trigger_load_inv (w : World) (s : TriggerState) (hs : trigger_inv s) :
    (trigger_load w s).1 ≠ some Outcome.aborted ∧ trigger_inv (trigger_load w s).2.1 ∧
      ((trigger_load w s).1 = none → 0 < (trigger_load w s).2.1.script_file_size) := by
  unfold trigger_load
  by_cases h0 : s.script_file_size = 0
  · rw [if_pos h0]
    cases w.getenv with
    | none => exact ⟨by simp, hs, by simp⟩
    | some value =>
      simp only
      by_cases h1 : strnlen value 1024 = 1024
      · rw [if_pos h1]
        refine ⟨by simp, ?_, by simp⟩
        intro h; simp only at h; omega
      · rw [if_neg h1]
        by_cases h2 : strnlen value 1024 = 0
        · rw [if_pos h2]
          refine ⟨by simp, ?_, by simp⟩
          intro _
          exact hs h0
        · rw [if_neg h2]
          rw [hs h0, if_pos (memcpy_getD_zero value _)]
          refine ⟨by simp, ?_, ?_⟩
          · intro h; exact absurd h h2
          · intro _; exact Nat.pos_of_ne_zero h2
  · rw [if_neg h0]
    exact ⟨by simp, hs, fun _ => Nat.pos_of_ne_zero h0⟩

theorem trigger_returns (w : World) (s : TriggerState) (action : ttyhook_action_t)
    (hs : trigger_inv s) (ha : action ≠ TTYHOOK_NONE) :
    ∃ b, (trigger w s action).outcome = Outcome.returned b := by
  have hl := trigger_load_inv w s hs
  unfold trigger
  rw [if_neg ha]
  rcases hld : trigger_load w s with ⟨o, s1, tr⟩
  rw [hld] at hl
  simp only at hl
  cases o with
  | some o =>
    cases o with
    | returned b => exact ⟨b, rfl⟩
    | aborted => exact absurd rfl hl.1
  | none =>
    simp only
    rw [if_pos (hl.2.2 rfl)]
    cases action <;> first | exact absurd rfl ha | skip
    all_goals
      simp only [script_arguments]
      split_ifs
      · exact ⟨false, rfl⟩
      · exact ⟨true, rfl⟩

theorem trigger_inv_preserved (w : World) (s : TriggerState) (action : ttyhook_action_t)
    (hs : trigger_inv s) : trigger_inv (trigger w s action).state := by
  have hl := trigger_load_inv w s hs
  unfold trigger
  split_ifs with h1
  · exact hs
  · rcases hld : trigger_load w s with ⟨o, s1, tr⟩
    rw [hld] at hl
    simp only at hl
    cases o with
    | some o => exact hl.2.1
    | none =>
      simp only
      split_ifs
      · cases script_arguments s1.script_file_value action with
        | none => exact hl.2.1
        | some command =>
          simp only
          split_ifs <;> exact hl.2.1
      · exact hl.2.1

/-! ### The command line -/

theorem c_str_all (l : List Char) : ∀ c ∈ c_str l, (c != NUL) = true := by
  intro c hc
  unfold c_str at hc
  have hp := List.mem_takeWhile_imp hc
  exact hp

theorem c_str_memcpy (path : List Char) (h : strnlen path 1024 < 1024) :
    c_str (memcpy (List.replicate 1024 NUL) path (strnlen path 1024)) = c_str path := by
  have hn : strnlen path 1024 = (c_str path).length := by
    unfold strnlen at h ⊢
    omega
  have htake : path.take (c_str path).length = c_str path :=
    (List.prefix_iff_eq_take.1 (List.takeWhile_prefix _)).symm
  unfold memcpy
  rw [hn, htake, List.drop_replicate]
  have hall := c_str_all path
  unfold c_str at hall ⊢
  rw [List.takeWhile_append_of_pos hall]
  cases hk : 1024 - (List.takeWhile (fun c => c != NUL) path).length with
  | zero => simp
  | succ k =>
    rw [List.replicate_succ, List.takeWhile_cons_of_neg (by decide)]
    simp

/-! ## Single bit requests -/

theorem spec_classify_rts (old new : Nat)
    (hother : ∀ i, i < 32 → i ≠ RTS_BIT → new.testBit i = old.testBit i)
    (hdiff : new.testBit RTS_BIT = !old.testBit RTS_BIT) :
    spec_classify old new =
      some (if old.testBit RTS_BIT = true then TTYHOOK_RTS_OFF else TTYHOOK_RTS_ON) := by
  have hn : (List.range 32).any
      (fun i => i != RTS_BIT && i != DTR_BIT && (old.testBit i != new.testBit i)) = false := by
    rw [List.any_eq_false]
    intro i hi
    by_cases h2 : i = RTS_BIT
    · simp [h2]
    · simp [hother i (List.mem_range.1 hi) h2]
  have hd : new.testBit DTR_BIT = old.testBit DTR_BIT := hother DTR_BIT (by decide) (by decide)
  rcases Bool.eq_false_or_eq_true (old.testBit RTS_BIT) with h1 | h1 <;>
    simp [spec_classify, hn, hd, hdiff, h1]

theorem testBit_rts (i : Nat) : TIOCM_RTS.testBit i = decide (RTS_BIT = i) := by
  show (2 ^ 2).testBit i = decide (2 = i)
  exact Nat.testBit_two_pow

theorem testBit_c_not_rts (i : Nat) :
    (c_not TIOCM_RTS).testBit i = decide (i < 32 ∧ i ≠ RTS_BIT) := by
  by_cases hi : i < 32
  · interval_cases i <;> decide
  · have h1 : c_not TIOCM_RTS < 2 ^ i :=
      lt_of_lt_of_le (show c_not TIOCM_RTS < 2 ^ 32 by decide)
        (Nat.pow_le_pow_right (by decide) (Nat.le_of_not_lt hi))
    rw [Nat.testBit_lt_two_pow h1]
    simp [hi]

theorem classify_set_rts (cur : Nat) (h : cur &&& TIOCM_RTS = 0) :
    ioctl_classify cur (cur ||| TIOCM_RTS) = some TTYHOOK_RTS_ON := by
  have hb : cur.testBit RTS_BIT = false := (and_rts_eq_zero_iff cur).1 h
  rw [ioctl_classify_eq_spec, spec_classify_rts cur (cur ||| TIOCM_RTS)]
  · simp [hb]
  · intro i _ h2
    rw [Nat.testBit_or, testBit_rts]
    simp [Ne.symm h2]
  · rw [Nat.testBit_or, testBit_rts, hb]
    simp

theorem classify_clear_rts (cur : Nat) (h : cur &&& TIOCM_RTS ≠ 0) :
    ioctl_classify cur (cur &&& c_not TIOCM_RTS) = some TTYHOOK_RTS_OFF := by
  have hb : cur.testBit RTS_BIT = true := by
    rcases Bool.eq_false_or_eq_true (cur.testBit RTS_BIT) with h1 | h1
    · exact h1
    · exact absurd ((and_rts_eq_zero_iff cur).2 h1) h
  rw [ioctl_classify_eq_spec, spec_classify_rts cur (cur &&& c_not TIOCM_RTS)]
  · simp [hb]
  · intro i h1 h2
    rw [Nat.testBit_and, testBit_c_not_rts]
    simp [h1, h2]
  · rw [Nat.testBit_and, testBit_c_not_rts, hb]
    simp

/-! ## `ioctl`, branch by branch -/

theorem ioctl_get (w : World) (s : HookState) (fd : Int) (arg : Nat) :
    ioctl w s fd TIOCMGET arg =
      { outcome := Outcome.returned (w.ioctl_real fd TIOCMGET arg).1,
        state := { s with current_tiocm := (w.ioctl_real fd TIOCMGET arg).2 },
        argp := (w.ioctl_real fd TIOCMGET arg).2,
        trace := [Event.real fd TIOCMGET arg] } := by
  simp [ioctl]

theorem ioctl_set_unknown (w : World) (s : HookState) (fd : Int) (arg : Nat)
    (h0 : s.current_tiocm = 0) :
    ioctl w s fd TIOCMSET arg =
      { outcome := Outcome.aborted, state := s, argp := arg, trace := [] } := by
  have hne : TIOCMSET ≠ TIOCMGET := by decide
  simp [ioctl, hne, h0]

theorem ioctl_set_fatal (w : World) (s : HookState) (fd : Int) (arg : Nat)
    (h0 : s.current_tiocm ≠ 0) (hc : ioctl_classify s.current_tiocm arg = none) :
    ioctl w s fd TIOCMSET arg =
      { outcome := Outcome.aborted, state := s, argp := arg, trace := [] } := by
  have hne : TIOCMSET ≠ TIOCMGET := by decide
  simp [ioctl, hne, h0, hc]

theorem ioctl_set_none (w : World) (s : HookState) (fd : Int) (arg : Nat)
    (h0 : s.current_tiocm ≠ 0) (hc : ioctl_classify s.current_tiocm arg = some TTYHOOK_NONE) :
    ioctl w s fd TIOCMSET arg =
      { outcome := Outcome.returned (w.ioctl_real fd TIOCMSET arg).1,
        state := { s with current_tiocm := (w.ioctl_real fd TIOCMSET arg).2 },
        argp := (w.ioctl_real fd TIOCMSET arg).2,
        trace := [Event.real fd TIOCMSET arg] } := by
  have hne : TIOCMSET ≠ TIOCMGET := by decide
  simp [ioctl, hne, h0, hc]

theorem ioctl_set_on (w : World) (s : HookState) (fd : Int) (arg : Nat)
    (action : ttyhook_action_t) (h0 : s.current_tiocm ≠ 0)
    (hc : ioctl_classify s.current_tiocm arg = some action)
    (ha : action = TTYHOOK_RTS_ON ∨ action = TTYHOOK_DTR_ON) :
    ioctl w s fd TIOCMSET arg =
      match (trigger w s.trigger_state action).outcome with
      | Outcome.aborted =>
        { outcome := Outcome.aborted,
          state := { s with trigger_state := (trigger w s.trigger_state action).state },
          argp := arg, trace := (trigger w s.trigger_state action).trace }
      | Outcome.returned false =>
        { outcome := Outcome.returned EINVAL,
          state := { s with trigger_state := (trigger w s.trigger_state action).state },
          argp := arg,
          trace := (trigger w s.trigger_state action).trace ++ [Event.log LogMsg.on_cancelled] }
      | Outcome.returned true =>
        { outcome := Outcome.returned (w.ioctl_real fd TIOCMSET arg).1,
          state := { current_tiocm := (w.ioctl_real fd TIOCMSET arg).2,
                     trigger_state := (trigger w s.trigger_state action).state },
          argp := (w.ioctl_real fd TIOCMSET arg).2,
          trace := (trigger w s.trigger_state action).trace ++ [Event.real fd TIOCMSET arg] } := by
  have hne : TIOCMSET ≠ TIOCMGET := by decide
  simp only [ioctl, if_neg hne, hc]
  rw [if_pos ⟨trivial, h0⟩, if_pos ha]

theorem ioctl_set_off (w : World) (s : HookState) (fd : Int) (arg : Nat)
    (action : ttyhook_action_t) (h0 : s.current_tiocm ≠ 0)
    (hc : ioctl_classify s.current_tiocm arg = some action)
    (ha : action = TTYHOOK_RTS_OFF ∨ action = TTYHOOK_DTR_OFF) :
    ioctl w s fd TIOCMSET arg =
      match (trigger w s.trigger_state action).outcome with
      | Outcome.aborted =>
        { outcome := Outcome.aborted,
          state := { current_tiocm := (w.ioctl_real fd TIOCMSET arg).2,
                     trigger_state := (trigger w s.trigger_state action).state },
          argp := (w.ioctl_real fd TIOCMSET arg).2,
          trace := Event.real fd TIOCMSET arg :: (trigger w s.trigger_state action).trace }
      | Outcome.returned false =>
        { outcome := Outcome.returned (w.ioctl_real fd TIOCMSET arg).1,
          state := { current_tiocm := (w.ioctl_real fd TIOCMSET arg).2,
                     trigger_state := (trigger w s.trigger_state action).state },
          argp := (w.ioctl_real fd TIOCMSET arg).2,
          trace := Event.real fd TIOCMSET arg :: (trigger w s.trigger_state action).trace ++
            [Event.log LogMsg.off_not_cancellable] }
      | Outcome.returned true =>
        { outcome := Outcome.returned (w.ioctl_real fd TIOCMSET arg).1,
          state := { current_tiocm := (w.ioctl_real fd TIOCMSET arg).2,
                     trigger_state := (trigger w s.trigger_state action).state },
          argp := (w.ioctl_real fd TIOCMSET arg).2,
          trace := Event.real fd TIOCMSET arg :: (trigger w s.trigger_state action).trace } := by
  have hne : TIOCMSET ≠ TIOCMGET := by decide
  have hon : ¬ (action = TTYHOOK_RTS_ON ∨ action = TTYHOOK_DTR_ON) := by
    rcases ha with h | h <;> rw [h] <;> decide
  simp only [ioctl, if_neg hne, hc]
  rw [if_pos ⟨trivial, h0⟩, if_neg hon, if_pos ha]

theorem ioctl_other (w : World) (s : HookState) (fd : Int) (operation arg : Nat)
    (hg : operation ≠ TIOCMGET) (hs : operation ≠ TIOCMSET) :
    ioctl w s fd operation arg =
      { outcome := Outcome.returned (w.ioctl_real fd operation arg).1, state := s,
        argp := (w.ioctl_real fd operation arg).2,
        trace := [Event.real fd operation arg] } := by
  simp [ioctl, hg, hs]

theorem filter_real_of_mem (l : List Event) (fd : Int) (request arg : Nat)
    (h : Event.real fd request arg ∈ l) : l.filter Event.is_real ≠ [] := by
  intro hnil
  have hm : Event.real fd request arg ∈ l.filter Event.is_real :=
    List.mem_filter.2 ⟨h, rfl⟩
  rw [hnil] at hm
  exact absurd hm (List.not_mem_nil _)

theorem snprintf_fits (buf suffix : List Char)
    (h : (c_str buf).length + suffix.length ≤ 2047) :
    snprintf 2048 buf suffix = c_str buf ++ suffix := by
  unfold snprintf
  apply List.take_of_length_le
  rw [List.length_append]
  exact h

theorem trigger_load_fresh (w : World) (path : List Char) (henv : w.getenv = some path)
    (hpos : 0 < strnlen path 1024) (hlen : strnlen path 1024 < 1024) :
    trigger_load w HookState.init.trigger_state =
      (none,
        { script_file_size := strnlen path 1024,
          script_file_value := memcpy (List.replicate 1024 NUL) path (strnlen path 1024) },
        [Event.getenv]) := by
  have h1 : ¬ strnlen path 1024 = 1024 := by omega
  have h2 : ¬ strnlen path 1024 = 0 := by omega
  simp only [trigger_load, HookState.init, henv, if_pos, if_neg h1, if_neg h2,
    if_pos (memcpy_getD_zero path (strnlen path 1024))]

theorem trigger_fresh_rts_on (w : World) (path : List Char) (henv : w.getenv = some path)
    (hpos : 0 < strnlen path 1024) (hlen : strnlen path 1024 < 1024)
    (hexit : w.system (c_str path ++ String.toList " 'rts_on'") = 0) :
    trigger w HookState.init.trigger_state TTYHOOK_RTS_ON =
      { outcome := Outcome.returned true,
        state := { script_file_size := strnlen path 1024,
                   script_file_value :=
                     memcpy (List.replicate 1024 NUL) path (strnlen path 1024) },
        trace := [Event.trigger TTYHOOK_RTS_ON, Event.getenv,
          Event.system (c_str path ++ String.toList " 'rts_on'")] } := by
  have hfit : (c_str (memcpy (List.replicate 1024 NUL) path (strnlen path 1024))).length
      + (String.toList " 'rts_on'").length ≤ 2047 := by
    rw [c_str_memcpy path hlen]
    have h9 : (String.toList " 'rts_on'").length = 9 := by decide
    unfold strnlen at hlen
    omega
  have hcmd : script_arguments (memcpy (List.replicate 1024 NUL) path (strnlen path 1024))
      TTYHOOK_RTS_ON = some (c_str path ++ String.toList " 'rts_on'") := by
    simp only [script_arguments]
    rw [snprintf_fits _ _ hfit, c_str_memcpy path hlen]
  have hw : WEXITSTATUS 0 = 0 := by decide
  have hload := trigger_load_fresh w path henv hpos hlen
  generalize memcpy (List.replicate 1024 NUL) path (strnlen path 1024) = buf at hcmd hload ⊢
  simp only [trigger, hload, hcmd, hexit, hw]
  simp [hpos]

theorem trigger_filter (w : World) (s : TriggerState) (action : ttyhook_action_t) :
    (trigger w s action).trace.filter Event.is_trigger = [Event.trigger action] ∧
    (trigger w s action).trace.filter Event.is_real = [] ∧
    (trigger w s action).trace.head? = some (Event.trigger action) := by
  obtain ⟨rest, htr, htrig, hreal⟩ := trigger_trace w s action
  rw [htr]
  refine ⟨?_, ?_, rfl⟩
  · rw [List.filter_cons_of_pos (by rfl), htrig]
  · rw [List.filter_cons_of_neg (by simp [Event.is_real]), hreal]

/-- What a `TIOCMSET` on a known baseline does with an on action, outcome by
outcome of `trigger`. -/
theorem ioctl_set_on_summary (w : World) (s : HookState) (fd : Int) (arg : Nat)
    (action : ttyhook_action_t) (h0 : s.current_tiocm ≠ 0)
    (hc : ioctl_classify s.current_tiocm arg = some action)
    (ha : action = TTYHOOK_RTS_ON ∨ action = TTYHOOK_DTR_ON) :
    (ioctl w s fd TIOCMSET arg).trace.filter Event.is_trigger = [Event.trigger action] ∧
    (((trigger w s.trigger_state action).outcome = Outcome.returned true ∧
        (ioctl w s fd TIOCMSET arg).trace
          = (trigger w s.trigger_state action).trace ++ [Event.real fd TIOCMSET arg] ∧
        (ioctl w s fd TIOCMSET arg).trace.filter Event.is_real = [Event.real fd TIOCMSET arg] ∧
        (ioctl w s fd TIOCMSET arg).outcome
          = Outcome.returned (w.ioctl_real fd TIOCMSET arg).1 ∧
        (ioctl w s fd TIOCMSET arg).state.current_tiocm = (w.ioctl_real fd TIOCMSET arg).2 ∧
        (ioctl w s fd TIOCMSET arg).argp = (w.ioctl_real fd TIOCMSET arg).2) ∨
     ((trigger w s.trigger_state action).outcome ≠ Outcome.returned true ∧
        (ioctl w s fd TIOCMSET arg).trace.filter Event.is_real = [] ∧
        (ioctl w s fd TIOCMSET arg).state.current_tiocm = s.current_tiocm)) := by
  obtain ⟨htrig, hreal, _⟩ := trigger_filter w s.trigger_state action
  rw [ioctl_set_on w s fd arg action h0 hc ha]
  cases hout : (trigger w s.trigger_state action).outcome with
  | aborted =>
    refine ⟨htrig, Or.inr ⟨by simp, hreal, rfl⟩⟩
  | returned b =>
    cases b with
    | false =>
      refine ⟨?_, Or.inr ⟨by simp, ?_, rfl⟩⟩
      · simp only [List.filter_append, htrig]; rfl
      · simp only [List.filter_append, hreal]; rfl
    | true =>
      refine ⟨?_, Or.inl ⟨rfl, rfl, ?_, rfl, rfl, rfl⟩⟩
      · simp only [List.filter_append, htrig]; rfl
      · simp only [List.filter_append, hreal]; rfl

/-- What a `TIOCMSET` on a known baseline does with an off action. -/
theorem ioctl_set_off_summary (w : World) (s : HookState) (fd : Int) (arg : Nat)
    (action : ttyhook_action_t) (h0 : s.current_tiocm ≠ 0)
    (hc : ioctl_classify s.current_tiocm arg = some action)
    (ha : action = TTYHOOK_RTS_OFF ∨ action = TTYHOOK_DTR_OFF) :
    (ioctl w s fd TIOCMSET arg).trace.filter Event.is_trigger = [Event.trigger action] ∧
    (ioctl w s fd TIOCMSET arg).trace.filter Event.is_real = [Event.real fd TIOCMSET arg] ∧
    (ioctl w s fd TIOCMSET arg).state.current_tiocm = (w.ioctl_real fd TIOCMSET arg).2 ∧
    (ioctl w s fd TIOCMSET arg).argp = (w.ioctl_real fd TIOCMSET arg).2 ∧
    ((ioctl w s fd TIOCMSET arg).outcome = Outcome.returned (w.ioctl_real fd TIOCMSET arg).1 ∨
      (ioctl w s fd TIOCMSET arg).outcome = Outcome.aborted) := by
  obtain ⟨htrig, hreal, _⟩ := trigger_filter w s.trigger_state action
  have hnt : ¬ Event.is_trigger (Event.real fd TIOCMSET arg) = true := by
    simp [Event.is_trigger]
  have hr : Event.is_real (Event.real fd TIOCMSET arg) = true := rfl
  rw [ioctl_set_off w s fd arg action h0 hc ha]
  cases hout : (trigger w s.trigger_state action).outcome with
  | aborted =>
    refine ⟨?_, ?_, rfl, rfl, Or.inr rfl⟩
    · simp only [List.filter_cons_of_neg hnt, htrig]
    · simp only [List.filter_cons_of_pos hr, hreal]
  | returned b =>
    cases b with
    | false =>
      refine ⟨?_, ?_, rfl, rfl, Or.inl rfl⟩
      · simp only [List.cons_append, List.filter_cons_of_neg hnt, List.filter_append, htrig]
        rfl
      · simp only [List.cons_append, List.filter_cons_of_pos hr, List.filter_append, hreal]
        rfl
    | true =>
      refine ⟨?_, ?_, rfl, rfl, Or.inl rfl⟩
      · simp only [List.filter_cons_of_neg hnt, htrig]
      · simp only [List.filter_cons_of_pos hr, hreal]

theorem action_cases (action : ttyhook_action_t) :
    action = TTYHOOK_NONE ∨ (action = TTYHOOK_RTS_ON ∨ action = TTYHOOK_DTR_ON) ∨
      (action = TTYHOOK_RTS_OFF ∨ action = TTYHOOK_DTR_OFF) := by
  cases action <;> simp

/-- Every `TIOCMGET` and `TIOCMSET` either calls the real `ioctl` once, on
its own arguments, and then tracks the value that is in `*argp` after that
call, or does not call it and leaves the tracked value as it was. -/
theorem ioctl_tracked_cases (w : World) (s : HookState) (fd : Int) (operation arg : Nat)
    (hop : operation = TIOCMGET ∨ operation = TIOCMSET) :
    ((ioctl w s fd operation arg).trace.filter Event.is_real = [Event.real fd operation arg] ∧
      (ioctl w s fd operation arg).state.current_tiocm = (w.ioctl_real fd operation arg).2 ∧
      ((ioctl w s fd operation arg).outcome
          = Outcome.returned (w.ioctl_real fd operation arg).1 ∨
        (ioctl w s fd operation arg).outcome = Outcome.aborted)) ∨
    ((ioctl w s fd operation arg).trace.filter Event.is_real = [] ∧
      (ioctl w s fd operation arg).state.current_tiocm = s.current_tiocm) := by
  rcases hop with hop | hop
  · subst hop
    rw [ioctl_get]
    exact Or.inl ⟨rfl, rfl, Or.inl rfl⟩
  · subst hop
    by_cases h0 : s.current_tiocm = 0
    · rw [ioctl_set_unknown w s fd arg h0]
      exact Or.inr ⟨rfl, rfl⟩
    · cases hc : ioctl_classify s.current_tiocm arg with
      | none =>
        rw [ioctl_set_fatal w s fd arg h0 hc]
        exact Or.inr ⟨rfl, rfl⟩
      | some action =>
        rcases action_cases action with ha | ha | ha
        · subst ha
          rw [ioctl_set_none w s fd arg h0 hc]
          exact Or.inl ⟨rfl, rfl, Or.inl rfl⟩
        · obtain ⟨_, h | h⟩ := ioctl_set_on_summary w s fd arg action h0 hc ha
          · exact Or.inl ⟨h.2.2.1, h.2.2.2.2.1, Or.inl h.2.2.2.1⟩
          · exact Or.inr ⟨h.2.1, h.2.2⟩
        · obtain ⟨_, h1, h2, _, h4⟩ := ioctl_set_off_summary w s fd arg action h0 hc ha
          exact Or.inl ⟨h1, h2, h4⟩

theorem and_two_pow_congr (x y i : Nat) (h : x.testBit i = y.testBit i) :
    x &&& 2 ^ i = y &&& 2 ^ i := by
  apply Nat.eq_of_testBit_eq
  intro j
  rw [Nat.testBit_and, Nat.testBit_and, Nat.testBit_two_pow]
  by_cases hij : i = j
  · subst hij; rw [h]
  · simp [hij]

theorem spec_classify_both (old new : Nat)
    (hrts : old.testBit RTS_BIT ≠ new.testBit RTS_BIT)
    (hdtr : old.testBit DTR_BIT ≠ new.testBit DTR_BIT) :
    spec_classify old new = none := by
  have hb : (old.testBit RTS_BIT != new.testBit RTS_BIT &&
      old.testBit DTR_BIT != new.testBit DTR_BIT) = true := by
    simp [hrts, hdtr]
  simp only [spec_classify]
  by_cases h1 : (List.range 32).any
      (fun i => i != RTS_BIT && i != DTR_BIT && (old.testBit i != new.testBit i)) = true
  · rw [if_pos h1]
  · rw [if_neg h1, if_pos hb]

/-- The tracked value after a committed `TIOCMSET` is what is in `*argp`
after the real call (line 163), not the request as such: with a real `ioctl`
that writes 0x20 there, 0x20 is tracked after a request of 0. -/
theorem ioctl_set_tracks_argp_after :
    (ioctl (writing_world 0x20) (sample_state TIOCM_RTS) 3 TIOCMSET 0).trace.filter Event.is_real
      = [Event.real 3 TIOCMSET 0] ∧
    (ioctl (writing_world 0x20) (sample_state TIOCM_RTS) 3 TIOCMSET 0).state.current_tiocm
      = 0x20 ∧
    (ioctl (writing_world 0x20) (sample_state TIOCM_RTS) 3 TIOCMSET 0).argp = 0x20 := by
  decide

theorem ioctl_set_triggers (w : World) (s : HookState) (fd : Int) (arg : Nat)
    (action : ttyhook_action_t) (h0 : s.current_tiocm ≠ 0)
    (hc : ioctl_classify s.current_tiocm arg = some action) :
    (ioctl w s fd TIOCMSET arg).trace.filter Event.is_trigger
      = if action = TTYHOOK_NONE then [] else [Event.trigger action] := by
  rcases action_cases action with ha | ha | ha
  · subst ha
    rw [ioctl_set_none w s fd arg h0 hc]
    rfl
  · have hne : action ≠ TTYHOOK_NONE := by
      rcases ha with h | h <;> rw [h] <;> decide
    rw [if_neg hne]
    exact (ioctl_set_on_summary w s fd arg action h0 hc ha).1
  · have hne : action ≠ TTYHOOK_NONE := by
      rcases ha with h | h <;> rw [h] <;> decide
    rw [if_neg hne]
    exact (ioctl_set_off_summary w s fd arg action h0 hc ha).1

theorem init_inv : trigger_inv HookState.init.trigger_state := fun _ => rfl

theorem ioctl_inv_preserved (w : World) (s : HookState) (fd : Int) (operation arg : Nat)
    (hs : trigger_inv s.trigger_state) :
    trigger_inv (ioctl w s fd operation arg).state.trigger_state := by
  by_cases hg : operation = TIOCMGET
  · subst hg
    rw [ioctl_get]
    exact hs
  · by_cases hset : operation = TIOCMSET
    · subst hset
      by_cases h0 : s.current_tiocm = 0
      · rw [ioctl_set_unknown w s fd arg h0]
        exact hs
      · cases hc : ioctl_classify s.current_tiocm arg with
        | none =>
          rw [ioctl_set_fatal w s fd arg h0 hc]
          exact hs
        | some action =>
          have ht := trigger_inv_preserved w s.trigger_state action hs
          rcases action_cases action with ha | ha | ha
          · subst ha
            rw [ioctl_set_none w s fd arg h0 hc]
            exact hs
          · rw [ioctl_set_on w s fd arg action h0 hc ha]
            cases (trigger w s.trigger_state action).outcome with
            | aborted => exact ht
            | returned b => cases b <;> exact ht
          · rw [ioctl_set_off w s fd arg action h0 hc ha]
            cases (trigger w s.trigger_state action).outcome with
            | aborted => exact ht
            | returned b => cases b <;> exact ht
    · rw [ioctl_other w s fd operation arg hg hset]
      exact hs

/-! ## `trigger`: what a call runs -/

theorem trigger_load_stored (w : World) (s : TriggerState) (h : s.script_file_size ≠ 0) :
    trigger_load w s = (none, s, []) := by
  simp [trigger_load, h]

theorem script_arguments_spec (buf : List Char) (action : ttyhook_action_t)
    (h : (c_str buf).length < 1024) :
    script_arguments buf action = spec_command (c_str buf) action := by
  cases action
  · rfl
  all_goals
    simp only [script_arguments, spec_command, action_token, Option.map_some']
    rw [snprintf_fits]
    · simp only [List.append_assoc]
      rfl
    · have : (String.toList " 'dtr_off'").length = 10 := by decide
      simp only [String.toList] at *
      simp only [List.length_cons, List.length_nil]
      omega

theorem trigger_load_no_system (w : World) (s : TriggerState) :
    (trigger_load w s).2.2.filter Event.is_system = [] := by
  unfold trigger_load
  split_ifs <;> first | rfl | skip
  cases w.getenv with
  | none => rfl
  | some value =>
    simp only
    split_ifs <;> rfl

/-- What a call does once the path is in the buffer: it runs the command
line and maps the status `system` returns. -/
theorem trigger_run (w : World) (s s1 : TriggerState) (tr : List Event)
    (action : ttyhook_action_t) (command : List Char) (ha : action ≠ TTYHOOK_NONE)
    (hl : trigger_load w s = (none, s1, tr)) (hpos : 0 < s1.script_file_size)
    (hcmd : script_arguments s1.script_file_value action = some command) :
    (trigger w s action).outcome
        = Outcome.returned (decide (WEXITSTATUS (w.system command) = 0)) ∧
    (trigger w s action).state = s1 ∧
    (trigger w s action).trace.filter Event.is_system = [Event.system command] ∧
    (trigger w s action).trace.filter Event.is_getenv = tr.filter Event.is_getenv := by
  have hsys : tr.filter Event.is_system = [] := by
    have h := trigger_load_no_system w s
    rw [hl] at h
    exact h
  simp only [trigger, if_neg ha, hl, if_pos hpos, hcmd]
  by_cases hz : WEXITSTATUS (w.system command) = 0
  · rw [if_neg (not_not.2 hz)]
    refine ⟨by simp [hz], rfl, ?_, ?_⟩
    · simp [List.filter_cons, List.filter_append, hsys, Event.is_system]
    · simp [List.filter_cons, List.filter_append, Event.is_getenv]
  · rw [if_pos hz]
    refine ⟨by simp [hz], rfl, ?_, ?_⟩
    · simp [List.filter_cons, List.filter_append, hsys, Event.is_system]
    · simp [List.filter_cons, List.filter_append, Event.is_getenv]

theorem script_arguments_some (buf : List Char) (action : ttyhook_action_t)
    (ha : action ≠ TTYHOOK_NONE) : ∃ command, script_arguments buf action = some command := by
  cases action
  · exact absurd rfl ha
  all_goals exact ⟨_, rfl⟩

/-- A call on a stored path: the environment is not read, the state stays,
and the command is the path with the token of the action. -/
theorem trigger_stored (w : World) (s : TriggerState) (path : List Char)
    (action : ttyhook_action_t) (hs : stored s path) (ha : action ≠ TTYHOOK_NONE) :
    ∃ command, spec_command path action = some command ∧
      (trigger w s action).outcome
        = Outcome.returned (decide (WEXITSTATUS (w.system command) = 0)) ∧
      (trigger w s action).state = s ∧
      (trigger w s action).trace.filter Event.is_system = [Event.system command] ∧
      (trigger w s action).trace.filter Event.is_getenv = [] := by
  obtain ⟨hsize, hpos, hlt, hbuf⟩ := hs
  obtain ⟨command, hcmd⟩ := script_arguments_some s.script_file_value action ha
  have hspec : spec_command path action = some command := by
    rw [← hbuf, ← script_arguments_spec _ _ (by rw [hbuf]; exact hlt)]
    exact hcmd
  have hne : s.script_file_size ≠ 0 := by omega
  have h := trigger_run w s s [] action command ha (trigger_load_stored w s hne) (by omega) hcmd
  exact ⟨command, hspec, h.1, h.2.1, h.2.2.1, h.2.2.2⟩

theorem trigger_calls_stored (s : TriggerState) (path : List Char) (hs : stored s path)
    (calls : List (World × ttyhook_action_t)) : trigger_calls s calls = s := by
  induction calls with
  | nil => rfl
  | cons c rest ih =>
    have hstate : (trigger c.1 s c.2).state = s := by
      by_cases ha : c.2 = TTYHOOK_NONE
      · simp [trigger, ha]
      · obtain ⟨_, _, _, h, _⟩ := trigger_stored c.1 s path c.2 hs ha
        exact h
    simp only [trigger_calls, hstate]
    exact ih

theorem c_str_of_no_nul (p : List Char) (hp : ∀ c ∈ p, c ≠ NUL) : c_str p = p := by
  unfold c_str
  rw [List.takeWhile_eq_self_iff]
  intro c hc
  simpa using hp c hc

/-- The first call with a value of 1 to 1023 bytes stores it. -/
theorem stored_after_load (value : List Char) (hpos : 0 < strnlen value 1024)
    (hlen : strnlen value 1024 < 1024) :
    stored { script_file_size := strnlen value 1024,
             script_file_value := memcpy (List.replicate 1024 NUL) value (strnlen value 1024) }
      (c_str value) := by
  have hn : strnlen value 1024 = (c_str value).length := by
    unfold strnlen at hlen ⊢
    omega
  refine ⟨hn, ?_, ?_, c_str_memcpy value hlen⟩
  · rw [← hn]; exact hpos
  · rw [← hn]; exact hlen

/-- The first call in a process whose `TTYHOOK_SCRIPT` has 1 to 1023 bytes. -/
theorem trigger_first (w : World) (value : List Char) (action : ttyhook_action_t)
    (henv : w.getenv = some value) (hpos : 0 < strnlen value 1024)
    (hlen : strnlen value 1024 < 1024) (ha : action ≠ TTYHOOK_NONE) :
    ∃ command, spec_command (c_str value) action = some command ∧
      (trigger w HookState.init.trigger_state action).outcome
        = Outcome.returned (decide (WEXITSTATUS (w.system command) = 0)) ∧
      stored (trigger w HookState.init.trigger_state action).state (c_str value) ∧
      (trigger w HookState.init.trigger_state action).trace.filter Event.is_system
        = [Event.system command] ∧
      (trigger w HookState.init.trigger_state action).trace.filter Event.is_getenv
        = [Event.getenv] := by
  have hst := stored_after_load value hpos hlen
  have hload := trigger_load_fresh w value henv hpos hlen
  generalize memcpy (List.replicate 1024 NUL) value (strnlen value 1024) = buf at hst hload
  obtain ⟨command, hcmd⟩ := script_arguments_some buf action ha
  have hspec : spec_command (c_str value) action = some command := by
    rw [← hst.2.2.2, ← script_arguments_spec _ _ (by rw [hst.2.2.2]; exact hst.2.2.1)]
    exact hcmd
  have h := trigger_run w _ _ _ action command ha hload hpos hcmd
  refine ⟨command, hspec, h.1, ?_, h.2.2.1, ?_⟩
  · rw [h.2.1]; exact hst
  · rw [h.2.2.2]; rfl

theorem trigger_configured (w : World) (s : TriggerState) (path : List Char)
    (action : ttyhook_action_t) (hc : configured w s path) (ha : action ≠ TTYHOOK_NONE) :
    ∃ command, spec_command path action = some command ∧
      (trigger w s action).outcome
        = Outcome.returned (decide (WEXITSTATUS (w.system command) = 0)) ∧
      stored (trigger w s action).state path ∧
      (trigger w s action).trace.filter Event.is_system = [Event.system command] := by
  rcases hc with hs | ⟨hinit, value, henv, hpath, hpos, hlt⟩
  · obtain ⟨command, h1, h2, h3, h4, _⟩ := trigger_stored w s path action hs ha
    exact ⟨command, h1, h2, by rw [h3]; exact hs, h4⟩
  · have hn : strnlen value 1024 = path.length := by
      unfold strnlen
      rw [hpath]
      omega
    subst hinit
    obtain ⟨command, h1, h2, h3, h4, _⟩ :=
      trigger_first w value action henv (by omega) (by omega) ha
    rw [hpath] at h1 h3
    exact ⟨command, h1, h2, h3, h4⟩

/-- A call that finds `TTYHOOK_SCRIPT` absent stores nothing and runs
nothing. -/
theorem trigger_unset (w : World) (s : TriggerState) (action : ttyhook_action_t)
    (henv : w.getenv = none) (hs : s.script_file_size = 0) (ha : action ≠ TTYHOOK_NONE) :
    trigger w s action =
      { outcome := Outcome.returned false, state := s,
        trace := [Event.trigger action, Event.getenv, Event.log LogMsg.no_value] } := by
  simp [trigger, trigger_load, ha, henv, hs]

/-- A call that finds `TTYHOOK_SCRIPT` empty stores nothing and runs
nothing. -/
theorem trigger_empty (w : World) (s : TriggerState) (value : List Char)
    (action : ttyhook_action_t) (henv : w.getenv = some value)
    (hv : strnlen value 1024 = 0) (hs : s.script_file_size = 0) (ha : action ≠ TTYHOOK_NONE) :
    trigger w s action =
      { outcome := Outcome.returned false, state := s,
        trace := [Event.trigger action, Event.getenv, Event.log LogMsg.empty_value] } := by
  have hstate : ({ s with script_file_size := 0 } : TriggerState) = s := by
    cases s
    simp only at hs
    rw [hs]
  simp [trigger, trigger_load, ha, henv, hs, hv, hstate]

/-! ## Wait statuses: the exit byte -/

theorem wexitstatus_normal :
    ∀ e : Nat, e < 256 → WEXITSTATUS (Int.ofNat (256 * e)) = Int.ofNat e := by
  set_option maxRecDepth 100000 in decide

theorem exit_byte (u : Nat) : (u &&& 0xff00) >>> 8 = (u / 256) % 256 := by
  apply Nat.eq_of_testBit_eq
  intro i
  have h256 : (256 : Nat) = 2 ^ 8 := by norm_num
  have hmask : (0xff00 : Nat).testBit (8 + i) = decide (i < 8) := by
    by_cases hi : i < 8
    · interval_cases i <;> decide
    · have h1 : (0xff00 : Nat) < 2 ^ (8 + i) :=
        lt_of_lt_of_le (show (0xff00 : Nat) < 2 ^ 16 by norm_num)
          (Nat.pow_le_pow_right (by decide) (by omega))
      rw [Nat.testBit_lt_two_pow h1]
      simp [hi]
  rw [Nat.testBit_shiftRight, Nat.testBit_and, hmask, h256, Nat.testBit_mod_two_pow,
    ← Nat.shiftRight_eq_div_pow, Nat.testBit_shiftRight, Bool.and_comm]

theorem wexitstatus_eq_zero_iff (status : Int) :
    WEXITSTATUS status = 0 ↔ ((status % 4294967296).toNat / 256) % 256 = 0 := by
  unfold WEXITSTATUS
  rw [exit_byte]
  exact Int.ofNat_eq_zero

/-! ## Single bit requests on DTR -/

theorem spec_classify_dtr (old new : Nat)
    (hother : ∀ i, i < 32 → i ≠ DTR_BIT → new.testBit i = old.testBit i)
    (hdiff : new.testBit DTR_BIT = !old.testBit DTR_BIT) :
    spec_classify old new =
      some (if old.testBit DTR_BIT = true then TTYHOOK_DTR_OFF else TTYHOOK_DTR_ON) := by
  have hn : (List.range 32).any
      (fun i => i != RTS_BIT && i != DTR_BIT && (old.testBit i != new.testBit i)) = false := by
    rw [List.any_eq_false]
    intro i hi
    by_cases h2 : i = DTR_BIT
    · simp [h2]
    · simp [hother i (List.mem_range.1 hi) h2]
  have hr : new.testBit RTS_BIT = old.testBit RTS_BIT := hother RTS_BIT (by decide) (by decide)
  rcases Bool.eq_false_or_eq_true (old.testBit DTR_BIT) with h1 | h1 <;>
    simp [spec_classify, hn, hr, hdiff, h1]

theorem testBit_dtr (i : Nat) : TIOCM_DTR.testBit i = decide (DTR_BIT = i) := by
  show (2 ^ 1).testBit i = decide (1 = i)
  exact Nat.testBit_two_pow

theorem testBit_c_not_dtr (i : Nat) :
    (c_not TIOCM_DTR).testBit i = decide (i < 32 ∧ i ≠ DTR_BIT) := by
  by_cases hi : i < 32
  · interval_cases i <;> decide
  · have h1 : c_not TIOCM_DTR < 2 ^ i :=
      lt_of_lt_of_le (show c_not TIOCM_DTR < 2 ^ 32 by decide)
        (Nat.pow_le_pow_right (by decide) (Nat.le_of_not_lt hi))
    rw [Nat.testBit_lt_two_pow h1]
    simp [hi]

theorem classify_set_dtr (cur : Nat) (h : cur &&& TIOCM_DTR = 0) :
    ioctl_classify cur (cur ||| TIOCM_DTR) = some TTYHOOK_DTR_ON := by
  have hb : cur.testBit DTR_BIT = false := (and_dtr_eq_zero_iff cur).1 h
  rw [ioctl_classify_eq_spec, spec_classify_dtr cur (cur ||| TIOCM_DTR)]
  · simp [hb]
  · intro i _ h2
    rw [Nat.testBit_or, testBit_dtr]
    simp [Ne.symm h2]
  · rw [Nat.testBit_or, testBit_dtr, hb]
    simp

theorem classify_clear_dtr (cur : Nat) (h : cur &&& TIOCM_DTR ≠ 0) :
    ioctl_classify cur (cur &&& c_not TIOCM_DTR) = some TTYHOOK_DTR_OFF := by
  have hb : cur.testBit DTR_BIT = true := by
    rcases Bool.eq_false_or_eq_true (cur.testBit DTR_BIT) with h1 | h1
    · exact h1
    · exact absurd ((and_dtr_eq_zero_iff cur).2 h1) h
  rw [ioctl_classify_eq_spec, spec_classify_dtr cur (cur &&& c_not TIOCM_DTR)]
  · simp [hb]
  · intro i h1 h2
    rw [Nat.testBit_and, testBit_c_not_dtr]
    simp [h1, h2]
  · rw [Nat.testBit_and, testBit_c_not_dtr, hb]
    simp

/-! ## The harness step -/

/-- The request of the harness is classified as one single action, which is
not `TTYHOOK_NONE`. -/
theorem classify_harness (toggle_rts toggle_dtr : Bool) (t : Nat)
    (hmode : toggle_rts = !toggle_dtr) :
    ∃ action, ioctl_classify t (harness_toggle toggle_rts toggle_dtr t) = some action ∧
      action ≠ TTYHOOK_NONE := by
  cases toggle_dtr with
  | false =>
    have hr : toggle_rts = true := by simpa using hmode
    subst hr
    by_cases h : t &&& TIOCM_RTS = 0
    · exact ⟨TTYHOOK_RTS_ON, by simp [harness_toggle, h, classify_set_rts t h], by decide⟩
    · exact ⟨TTYHOOK_RTS_OFF, by simp [harness_toggle, h, classify_clear_rts t h], by decide⟩
  | true =>
    have hr : toggle_rts = false := by simpa using hmode
    subst hr
    by_cases h : t &&& TIOCM_DTR = 0
    · exact ⟨TTYHOOK_DTR_ON, by simp [harness_toggle, h, classify_set_dtr t h], by decide⟩
    · exact ⟨TTYHOOK_DTR_OFF, by simp [harness_toggle, h, classify_clear_dtr t h], by decide⟩

/-- A `TIOCMSET` on a known baseline whose request is classified as an
action returns, and what it returns is `EINVAL` or the result of the real
`ioctl`. -/
theorem ioctl_set_returns (w : World) (s : HookState) (fd : Int) (arg : Nat)
    (action : ttyhook_action_t) (hinv : trigger_inv s.trigger_state)
    (h0 : s.current_tiocm ≠ 0) (hc : ioctl_classify s.current_tiocm arg = some action) :
    (ioctl w s fd TIOCMSET arg).outcome = Outcome.returned EINVAL ∨
    (ioctl w s fd TIOCMSET arg).outcome
      = Outcome.returned (w.ioctl_real fd TIOCMSET arg).1 := by
  rcases action_cases action with ha | ha | ha
  · subst ha
    rw [ioctl_set_none w s fd arg h0 hc]
    exact Or.inr rfl
  · have hne : action ≠ TTYHOOK_NONE := by
      rcases ha with h | h <;> rw [h] <;> decide
    obtain ⟨b, hb⟩ := trigger_returns w s.trigger_state action hinv hne
    rw [ioctl_set_on w s fd arg action h0 hc ha, hb]
    cases b
    · exact Or.inl rfl
    · exact Or.inr rfl
  · have hne : action ≠ TTYHOOK_NONE := by
      rcases ha with h | h <;> rw [h] <;> decide
    obtain ⟨b, hb⟩ := trigger_returns w s.trigger_state action hinv hne
    rw [ioctl_set_off w s fd arg action h0 hc ha, hb]
    cases b <;> exact Or.inr rfl

/-- The harness step on a bit mask other than 0: the `TIOCMSET` that follows
a `TIOCMGET` which returned `t` is not aborted, and it returns a value other
than -1 when the real `ioctl` does. -/
theorem harness_step_safe (w1 w2 : World) (s : HookState) (fd : Int) (arg0 : Nat)
    (toggle_rts toggle_dtr : Bool) (hmode : toggle_rts = !toggle_dtr)
    (hinv : trigger_inv s.trigger_state)
    (ht : (ioctl w1 s fd TIOCMGET arg0).argp ≠ 0)
    (hreal : (w2.ioctl_real fd TIOCMSET
      (harness_toggle toggle_rts toggle_dtr (ioctl w1 s fd TIOCMGET arg0).argp)).1 ≠ -1) :
    ∃ v, (ioctl w2 (ioctl w1 s fd TIOCMGET arg0).state fd TIOCMSET
        (harness_toggle toggle_rts toggle_dtr (ioctl w1 s fd TIOCMGET arg0).argp)).outcome
      = Outcome.returned v ∧ v ≠ -1 := by
  rw [ioctl_get] at ht hreal ⊢
  simp only at ht hreal ⊢
  obtain ⟨action, hc, _⟩ :=
    classify_harness toggle_rts toggle_dtr (w1.ioctl_real fd TIOCMGET arg0).2 hmode
  rcases ioctl_set_returns w2
      { s with current_tiocm := (w1.ioctl_real fd TIOCMGET arg0).2 } fd _ action hinv ht hc
    with h | h
  · exact ⟨EINVAL, h, by decide⟩
  · exact ⟨_, h, hreal⟩

/-! ## Runs -/

theorem trigger_calls_inv (s : TriggerState) (hs : trigger_inv s)
    (calls : List (World × ttyhook_action_t)) : trigger_inv (trigger_calls s calls) := by
  induction calls generalizing s with
  | nil => exact hs
  | cons c rest ih =>
    exact ih _ (trigger_inv_preserved c.1 s c.2 hs)

/-- With `TTYHOOK_SCRIPT` absent a call of the hook leaves the static
variables of `trigger` as they are. -/
theorem ioctl_unset_trigger_state (w : World) (s : HookState) (fd : Int) (operation arg : Nat)
    (henv : w.getenv = none) (hs : s.trigger_state.script_file_size = 0) :
    (ioctl w s fd operation arg).state.trigger_state = s.trigger_state := by
  by_cases hg : operation = TIOCMGET
  · subst hg
    rw [ioctl_get]
  · by_cases hset : operation = TIOCMSET
    · subst hset
      by_cases h0 : s.current_tiocm = 0
      · rw [ioctl_set_unknown w s fd arg h0]
      · cases hc : ioctl_classify s.current_tiocm arg with
        | none => rw [ioctl_set_fatal w s fd arg h0 hc]
        | some action =>
          rcases action_cases action with ha | ha | ha
          · subst ha
            rw [ioctl_set_none w s fd arg h0 hc]
          · have hne : action ≠ TTYHOOK_NONE := by
              rcases ha with h | h <;> rw [h] <;> decide
            rw [ioctl_set_on w s fd arg action h0 hc ha,
              trigger_unset w s.trigger_state action henv hs hne]
          · have hne : action ≠ TTYHOOK_NONE := by
              rcases ha with h | h <;> rw [h] <;> decide
            rw [ioctl_set_off w s fd arg action h0 hc ha,
              trigger_unset w s.trigger_state action henv hs hne]
    · rw [ioctl_other w s fd operation arg hg hset]

theorem ioctl_calls_unset (s : HookState) (calls : List Call)
    (henv : ∀ c ∈ calls, c.world.getenv = none) (hs : s.trigger_state.script_file_size = 0) :
    (ioctl_calls s calls).trigger_state = s.trigger_state := by
  induction calls generalizing s with
  | nil => rfl
  | cons c rest ih =>
    have h1 := ioctl_unset_trigger_state c.world s c.fd c.operation c.arg
      (henv c (List.mem_cons_self c rest)) hs
    have h2 := ih (ioctl c.world s c.fd c.operation c.arg).state
      (fun d hd => henv d (List.mem_cons_of_mem c hd)) (by rw [h1]; exact hs)
    simp only [ioctl_calls]
    rw [h2, h1]

theorem memcpy_length (value : List Char) (n : Nat) (hn : n ≤ value.length) (h : n ≤ 1024) :
    (memcpy (List.replicate 1024 NUL) value n).length = 1024 := by
  unfold memcpy
  rw [List.length_append, List.length_take, List.length_drop, List.length_replicate]
  omega

theorem strnlen_le_length (value : List Char) (maxlen : Nat) :
    strnlen value maxlen ≤ value.length := by
  unfold strnlen c_str
  have h := (List.takeWhile_prefix (fun c => c != NUL) : _ <+: value).length_le
  omega

/-! ## The claims -/

/-- C1, counterexample.  The tracked bit mask is 0, so its RTS and DTR bits
are both 0, the script exits with status 1, and the request is that mask
with the RTS bit set.  The call does not return `EINVAL`: it is aborted by
the assertion of line 176, because a tracked value of 0 is what the guard of
line 126 takes for no baseline at all. -/
theorem C1_veto_fails_at_zero_baseline :
    (sample_state 0).current_tiocm &&& TIOCM_RTS = 0 ∧
    (sample_state 0).current_tiocm &&& TIOCM_DTR = 0 ∧
    (trigger (sample_world (some "/usr/bin/false") 256 0 0)
      (sample_state 0).trigger_state TTYHOOK_RTS_ON).outcome = Outcome.returned false ∧
    (ioctl (sample_world (some "/usr/bin/false") 256 0 0) (sample_state 0) 3 TIOCMSET
      ((sample_state 0).current_tiocm ||| TIOCM_RTS)).outcome = Outcome.aborted ∧
    (ioctl (sample_world (some "/usr/bin/false") 256 0 0) (sample_state 0) 3 TIOCMSET
      ((sample_state 0).current_tiocm ||| TIOCM_RTS)).outcome ≠ Outcome.returned EINVAL := by
  decide

/-- C1, amended.  Veto semantics for every tracked bit mask other than 0
whose RTS and DTR bits are both 0: when the request is that mask with the RTS
bit set and the trigger reports failure, the call returns `EINVAL`, the
tracked bit mask is unchanged, and the real `ioctl` is not called. -/
theorem C1_veto_known_baseline (w : World) (s : HookState) (fd : Int)
    (hknown : s.current_tiocm ≠ 0)
    (hrts : s.current_tiocm &&& TIOCM_RTS = 0)
    (_hdtr : s.current_tiocm &&& TIOCM_DTR = 0)
    (hfail : (trigger w s.trigger_state TTYHOOK_RTS_ON).outcome = Outcome.returned false) :
    (ioctl w s fd TIOCMSET (s.current_tiocm ||| TIOCM_RTS)).outcome = Outcome.returned EINVAL ∧
    (ioctl w s fd TIOCMSET (s.current_tiocm ||| TIOCM_RTS)).state.current_tiocm
      = s.current_tiocm ∧
    (ioctl w s fd TIOCMSET (s.current_tiocm ||| TIOCM_RTS)).trace.filter Event.is_real = [] := by
  obtain ⟨rest, htr, _, hreal⟩ := trigger_trace w s.trigger_state TTYHOOK_RTS_ON
  rw [ioctl_set_on w s fd _ TTYHOOK_RTS_ON hknown (classify_set_rts _ hrts) (Or.inl rfl), hfail]
  refine ⟨rfl, rfl, ?_⟩
  simp only [htr, List.filter_append, List.filter_cons, hreal]
  rfl

/-- C1, witness: the tracked bit mask is `TIOCM_CTS` (0x020) and the script
exits with status 1. -/
theorem C1_veto_known_baseline_witness :
    (ioctl (sample_world (some "/usr/bin/false") 256 0 0) (sample_state 0x020) 3 TIOCMSET
      ((sample_state 0x020).current_tiocm ||| TIOCM_RTS)).outcome = Outcome.returned EINVAL ∧
    (ioctl (sample_world (some "/usr/bin/false") 256 0 0) (sample_state 0x020) 3 TIOCMSET
      ((sample_state 0x020).current_tiocm ||| TIOCM_RTS)).state.current_tiocm
      = (sample_state 0x020).current_tiocm ∧
    (ioctl (sample_world (some "/usr/bin/false") 256 0 0) (sample_state 0x020) 3 TIOCMSET
      ((sample_state 0x020).current_tiocm ||| TIOCM_RTS)).trace.filter Event.is_real = [] :=
  C1_veto_known_baseline (sample_world (some "/usr/bin/false") 256 0 0) (sample_state 0x020) 3
    (by decide) (by decide) (by decide) (by decide)

/-- C2.  Unconditional off: for every tracked bit mask with the RTS bit set
(and the DTR bit clear) and the request that is this mask with the RTS bit
cleared, the real `ioctl` is called with the requested mask before `trigger`
is called with `TTYHOOK_RTS_OFF`, the tracked bit mask becomes the value
found in `*argp` after the real call, which is the requested mask since the
real `TIOCMSET` leaves `*argp` as it found it (hypothesis `hconst`), and the
call returns what the real `ioctl` returned, whatever `trigger` answers. -/
theorem C2_unconditional_off (w : World) (s : HookState) (fd : Int)
    (hinv : trigger_inv s.trigger_state)
    (hrts : s.current_tiocm &&& TIOCM_RTS ≠ 0)
    (_hdtr : s.current_tiocm &&& TIOCM_DTR = 0)
    (hconst : (w.ioctl_real fd TIOCMSET (s.current_tiocm &&& c_not TIOCM_RTS)).2
      = s.current_tiocm &&& c_not TIOCM_RTS) :
    (ioctl w s fd TIOCMSET (s.current_tiocm &&& c_not TIOCM_RTS)).outcome
      = Outcome.returned (w.ioctl_real fd TIOCMSET (s.current_tiocm &&& c_not TIOCM_RTS)).1 ∧
    (ioctl w s fd TIOCMSET (s.current_tiocm &&& c_not TIOCM_RTS)).state.current_tiocm
      = (w.ioctl_real fd TIOCMSET (s.current_tiocm &&& c_not TIOCM_RTS)).2 ∧
    (ioctl w s fd TIOCMSET (s.current_tiocm &&& c_not TIOCM_RTS)).state.current_tiocm
      = s.current_tiocm &&& c_not TIOCM_RTS ∧
    ∃ rest, (ioctl w s fd TIOCMSET (s.current_tiocm &&& c_not TIOCM_RTS)).trace
        = Event.real fd TIOCMSET (s.current_tiocm &&& c_not TIOCM_RTS) ::
          Event.trigger TTYHOOK_RTS_OFF :: rest ∧
      rest.filter Event.is_real = [] ∧ rest.filter Event.is_trigger = [] := by
  have hknown : s.current_tiocm ≠ 0 := by
    intro h0
    apply hrts
    rw [h0]
    rfl
  obtain ⟨rest, htr, htrig, hreal⟩ := trigger_trace w s.trigger_state TTYHOOK_RTS_OFF
  obtain ⟨b, hb⟩ := trigger_returns w s.trigger_state TTYHOOK_RTS_OFF hinv (by decide)
  rw [ioctl_set_off w s fd _ TTYHOOK_RTS_OFF hknown (classify_clear_rts _ hrts) (Or.inl rfl), hb]
  cases b with
  | false =>
    refine ⟨rfl, rfl, hconst, rest ++ [Event.log LogMsg.off_not_cancellable], ?_, ?_, ?_⟩
    · simp only [htr, List.cons_append]
    · rw [List.filter_append, hreal]; rfl
    · rw [List.filter_append, htrig]; rfl
  | true =>
    exact ⟨rfl, rfl, hconst, rest, by simp only [htr], hreal, htrig⟩

/-- C2, witness: the tracked bit mask is `TIOCM_RTS` alone and no script is
configured, so `trigger` answers failure. -/
theorem C2_unconditional_off_witness :
    (ioctl (sample_world none 0 0 0) (sample_state TIOCM_RTS) 3 TIOCMSET
        ((sample_state TIOCM_RTS).current_tiocm &&& c_not TIOCM_RTS)).outcome
      = Outcome.returned ((sample_world none 0 0 0).ioctl_real 3 TIOCMSET
          ((sample_state TIOCM_RTS).current_tiocm &&& c_not TIOCM_RTS)).1 ∧
    (ioctl (sample_world none 0 0 0) (sample_state TIOCM_RTS) 3 TIOCMSET
        ((sample_state TIOCM_RTS).current_tiocm &&& c_not TIOCM_RTS)).state.current_tiocm
      = ((sample_world none 0 0 0).ioctl_real 3 TIOCMSET
          ((sample_state TIOCM_RTS).current_tiocm &&& c_not TIOCM_RTS)).2 ∧
    (ioctl (sample_world none 0 0 0) (sample_state TIOCM_RTS) 3 TIOCMSET
        ((sample_state TIOCM_RTS).current_tiocm &&& c_not TIOCM_RTS)).state.current_tiocm
      = (sample_state TIOCM_RTS).current_tiocm &&& c_not TIOCM_RTS ∧
    ∃ rest, (ioctl (sample_world none 0 0 0) (sample_state TIOCM_RTS) 3 TIOCMSET
          ((sample_state TIOCM_RTS).current_tiocm &&& c_not TIOCM_RTS)).trace
        = Event.real 3 TIOCMSET ((sample_state TIOCM_RTS).current_tiocm &&& c_not TIOCM_RTS) ::
          Event.trigger TTYHOOK_RTS_OFF :: rest ∧
      rest.filter Event.is_real = [] ∧ rest.filter Event.is_trigger = [] :=
  C2_unconditional_off (sample_world none 0 0 0) (sample_state TIOCM_RTS) 3
    (by intro _; rfl) (by decide) (by decide) (by decide)

/-- C3, counterexample.  The scenario as the specification gives it: the
script always exits 0, nothing has been observed yet, the `TIOCMGET` returns
the bit mask 0, and the `TIOCMSET` requests the mask with only RTS set.  The
`TIOCMSET` is aborted by the assertion of line 176 before `trigger` or the
real `ioctl` is called. -/
theorem C3_scenario_aborts :
    (ioctl (sample_world (some "/usr/bin/true") 0 0 0) HookState.init 3 TIOCMGET 0).outcome
      = Outcome.returned 0 ∧
    (ioctl (sample_world (some "/usr/bin/true") 0 0 0) HookState.init 3 TIOCMGET 0).argp = 0 ∧
    (ioctl (sample_world (some "/usr/bin/true") 0 0 0)
      (ioctl (sample_world (some "/usr/bin/true") 0 0 0) HookState.init 3 TIOCMGET 0).state
      3 TIOCMSET TIOCM_RTS).outcome = Outcome.aborted ∧
    (ioctl (sample_world (some "/usr/bin/true") 0 0 0)
      (ioctl (sample_world (some "/usr/bin/true") 0 0 0) HookState.init 3 TIOCMGET 0).state
      3 TIOCMSET TIOCM_RTS).trace = [] := by
  decide

/-- C3, amended.  The scenario with a `TIOCMGET` that returns a bit mask
`lines` other than 0 whose RTS bit is clear: from the initial state, with a
script path of 1 to 1023 bytes whose command always ends with status 0, the
`TIOCMSET` that requests `lines` with the RTS bit set runs the command
`<path> 'rts_on'`, then calls the real `ioctl` with the requested mask; the
tracked bit mask becomes the value found in `*argp` after that call, which is
the requested mask since the real `TIOCMSET` leaves `*argp` as it found it
(hypothesis `hconst`), and the call returns what the real `ioctl` returned. -/
theorem C3_scenario_nonzero_get (w1 w2 : World) (fd : Int) (arg0 lines : Nat) (result : Int)
    (path : List Char)
    (hget : w1.ioctl_real fd TIOCMGET arg0 = (result, lines))
    (hlines : lines ≠ 0) (hrts : lines &&& TIOCM_RTS = 0)
    (henv : w2.getenv = some path)
    (hpos : 0 < strnlen path 1024) (hlen : strnlen path 1024 < 1024)
    (hexit : ∀ command, w2.system command = 0)
    (hconst : (w2.ioctl_real fd TIOCMSET (lines ||| TIOCM_RTS)).2 = lines ||| TIOCM_RTS) :
    (ioctl w1 HookState.init fd TIOCMGET arg0).outcome = Outcome.returned result ∧
    (ioctl w1 HookState.init fd TIOCMGET arg0).argp = lines ∧
    (ioctl w2 (ioctl w1 HookState.init fd TIOCMGET arg0).state fd TIOCMSET
        (lines ||| TIOCM_RTS)).trace
      = [Event.trigger TTYHOOK_RTS_ON, Event.getenv,
          Event.system (c_str path ++ String.toList " 'rts_on'"),
          Event.real fd TIOCMSET (lines ||| TIOCM_RTS)] ∧
    (ioctl w2 (ioctl w1 HookState.init fd TIOCMGET arg0).state fd TIOCMSET
        (lines ||| TIOCM_RTS)).state.current_tiocm
      = (w2.ioctl_real fd TIOCMSET (lines ||| TIOCM_RTS)).2 ∧
    (ioctl w2 (ioctl w1 HookState.init fd TIOCMGET arg0).state fd TIOCMSET
        (lines ||| TIOCM_RTS)).state.current_tiocm = lines ||| TIOCM_RTS ∧
    (ioctl w2 (ioctl w1 HookState.init fd TIOCMGET arg0).state fd TIOCMSET
        (lines ||| TIOCM_RTS)).outcome
      = Outcome.returned (w2.ioctl_real fd TIOCMSET (lines ||| TIOCM_RTS)).1 := by
  have hg : (ioctl w1 HookState.init fd TIOCMGET arg0).state
      = { HookState.init with current_tiocm := lines } := by
    rw [ioctl_get, hget]
  have ht := trigger_fresh_rts_on w2 path henv hpos hlen (hexit _)
  rw [hg, ioctl_set_on w2 _ fd _ TTYHOOK_RTS_ON hlines (classify_set_rts lines hrts) (Or.inl rfl)]
  rw [ioctl_get, hget]
  refine ⟨rfl, rfl, ?_⟩
  simp only [ht]
  exact ⟨rfl, trivial, hconst, trivial⟩

/-- C3, witness: the `TIOCMGET` returns `TIOCM_DTR` alone and the script is
`/usr/bin/true`. -/
theorem C3_scenario_nonzero_get_witness :
    (ioctl (sample_world none 0 0 TIOCM_DTR) HookState.init 3 TIOCMGET 0).outcome
      = Outcome.returned 0 ∧
    (ioctl (sample_world none 0 0 TIOCM_DTR) HookState.init 3 TIOCMGET 0).argp = TIOCM_DTR ∧
    (ioctl (sample_world (some "/usr/bin/true") 0 0 0)
        (ioctl (sample_world none 0 0 TIOCM_DTR) HookState.init 3 TIOCMGET 0).state 3 TIOCMSET
        (TIOCM_DTR ||| TIOCM_RTS)).trace
      = [Event.trigger TTYHOOK_RTS_ON, Event.getenv,
          Event.system (c_str (String.toList "/usr/bin/true") ++ String.toList " 'rts_on'"),
          Event.real 3 TIOCMSET (TIOCM_DTR ||| TIOCM_RTS)] ∧
    (ioctl (sample_world (some "/usr/bin/true") 0 0 0)
        (ioctl (sample_world none 0 0 TIOCM_DTR) HookState.init 3 TIOCMGET 0).state 3 TIOCMSET
        (TIOCM_DTR ||| TIOCM_RTS)).state.current_tiocm
      = ((sample_world (some "/usr/bin/true") 0 0 0).ioctl_real 3 TIOCMSET
          (TIOCM_DTR ||| TIOCM_RTS)).2 ∧
    (ioctl (sample_world (some "/usr/bin/true") 0 0 0)
        (ioctl (sample_world none 0 0 TIOCM_DTR) HookState.init 3 TIOCMGET 0).state 3 TIOCMSET
        (TIOCM_DTR ||| TIOCM_RTS)).state.current_tiocm = TIOCM_DTR ||| TIOCM_RTS ∧
    (ioctl (sample_world (some "/usr/bin/true") 0 0 0)
        (ioctl (sample_world none 0 0 TIOCM_DTR) HookState.init 3 TIOCMGET 0).state 3 TIOCMSET
        (TIOCM_DTR ||| TIOCM_RTS)).outcome
      = Outcome.returned ((sample_world (some "/usr/bin/true") 0 0 0).ioctl_real 3 TIOCMSET
          (TIOCM_DTR ||| TIOCM_RTS)).1 :=
  C3_scenario_nonzero_get (sample_world none 0 0 TIOCM_DTR)
    (sample_world (some "/usr/bin/true") 0 0 0) 3 0 TIOCM_DTR 0 (String.toList "/usr/bin/true")
    (by decide) (by decide) (by decide) (by decide) (by decide) (by decide) (fun _ => rfl)
    (by decide)

/-- C4, the failing input.  A `TIOCMSET` while nothing has been observed yet
(the tracked value is still the 0 of static storage) is not passed through:
for every world, file descriptor and requested mask the call is aborted by
the assertion of line 176, and the real `ioctl` is not called. -/
theorem C4_unknown_baseline_set_aborts (w : World) (fd : Int) (arg : Nat) :
    (ioctl w HookState.init fd TIOCMSET arg).outcome = Outcome.aborted ∧
    (ioctl w HookState.init fd TIOCMSET arg).trace = [] := by
  rw [ioctl_set_unknown w HookState.init fd arg rfl]
  exact ⟨rfl, rfl⟩

/-- C5.  Commit must be earned: on a known baseline (a tracked value other
than 0) with a request the hook classifies as `TTYHOOK_RTS_ON` or
`TTYHOOK_DTR_ON`, `trigger` is called exactly once, with that action and
first; the real `ioctl` is called only if `trigger` returned true; and when
it did, the real `ioctl` is called exactly once, with the requested mask,
after `trigger`, and its result is what the call returns. -/
theorem C5_on_commit_is_earned (w : World) (s : HookState) (fd : Int) (arg : Nat)
    (action : ttyhook_action_t) (hknown : s.current_tiocm ≠ 0)
    (hc : ioctl_classify s.current_tiocm arg = some action)
    (ha : action = TTYHOOK_RTS_ON ∨ action = TTYHOOK_DTR_ON) :
    (ioctl w s fd TIOCMSET arg).trace.filter Event.is_trigger = [Event.trigger action] ∧
    (ioctl w s fd TIOCMSET arg).trace.head? = some (Event.trigger action) ∧
    ((ioctl w s fd TIOCMSET arg).trace.filter Event.is_real ≠ [] →
      (trigger w s.trigger_state action).outcome = Outcome.returned true) ∧
    ((trigger w s.trigger_state action).outcome = Outcome.returned true →
      (ioctl w s fd TIOCMSET arg).trace
        = (trigger w s.trigger_state action).trace ++ [Event.real fd TIOCMSET arg] ∧
      (ioctl w s fd TIOCMSET arg).trace.filter Event.is_real = [Event.real fd TIOCMSET arg] ∧
      (ioctl w s fd TIOCMSET arg).outcome
        = Outcome.returned (w.ioctl_real fd TIOCMSET arg).1) := by
  obtain ⟨rest, htr, _, _⟩ := trigger_trace w s.trigger_state action
  have hhead : (ioctl w s fd TIOCMSET arg).trace.head? = some (Event.trigger action) := by
    rw [ioctl_set_on w s fd arg action hknown hc ha]
    cases hout : (trigger w s.trigger_state action).outcome with
    | aborted => simp only [htr]; rfl
    | returned b => cases b <;> simp only [htr] <;> rfl
  obtain ⟨htrig, h | h⟩ := ioctl_set_on_summary w s fd arg action hknown hc ha
  · exact ⟨htrig, hhead, fun _ => h.1, fun _ => ⟨h.2.1, h.2.2.1, h.2.2.2.1⟩⟩
  · exact ⟨htrig, hhead, fun hne => absurd h.2.1 hne, fun ht => absurd ht h.1⟩

/-- C5, witness: the tracked value is `TIOCM_DTR`, the request adds RTS and
the script exits with status 0. -/
theorem C5_on_commit_is_earned_witness :
    (ioctl (sample_world (some "/usr/bin/true") 0 0 0) (sample_state TIOCM_DTR) 3 TIOCMSET
      (TIOCM_DTR ||| TIOCM_RTS)).trace.filter Event.is_trigger
      = [Event.trigger TTYHOOK_RTS_ON] ∧
    (ioctl (sample_world (some "/usr/bin/true") 0 0 0) (sample_state TIOCM_DTR) 3 TIOCMSET
      (TIOCM_DTR ||| TIOCM_RTS)).trace.head? = some (Event.trigger TTYHOOK_RTS_ON) ∧
    ((ioctl (sample_world (some "/usr/bin/true") 0 0 0) (sample_state TIOCM_DTR) 3 TIOCMSET
        (TIOCM_DTR ||| TIOCM_RTS)).trace.filter Event.is_real ≠ [] →
      (trigger (sample_world (some "/usr/bin/true") 0 0 0) (sample_state TIOCM_DTR).trigger_state
        TTYHOOK_RTS_ON).outcome = Outcome.returned true) ∧
    ((trigger (sample_world (some "/usr/bin/true") 0 0 0) (sample_state TIOCM_DTR).trigger_state
        TTYHOOK_RTS_ON).outcome = Outcome.returned true →
      (ioctl (sample_world (some "/usr/bin/true") 0 0 0) (sample_state TIOCM_DTR) 3 TIOCMSET
          (TIOCM_DTR ||| TIOCM_RTS)).trace
        = (trigger (sample_world (some "/usr/bin/true") 0 0 0)
            (sample_state TIOCM_DTR).trigger_state TTYHOOK_RTS_ON).trace
          ++ [Event.real 3 TIOCMSET (TIOCM_DTR ||| TIOCM_RTS)] ∧
      (ioctl (sample_world (some "/usr/bin/true") 0 0 0) (sample_state TIOCM_DTR) 3 TIOCMSET
          (TIOCM_DTR ||| TIOCM_RTS)).trace.filter Event.is_real
        = [Event.real 3 TIOCMSET (TIOCM_DTR ||| TIOCM_RTS)] ∧
      (ioctl (sample_world (some "/usr/bin/true") 0 0 0) (sample_state TIOCM_DTR) 3 TIOCMSET
          (TIOCM_DTR ||| TIOCM_RTS)).outcome
        = Outcome.returned ((sample_world (some "/usr/bin/true") 0 0 0).ioctl_real 3 TIOCMSET
            (TIOCM_DTR ||| TIOCM_RTS)).1) :=
  C5_on_commit_is_earned (sample_world (some "/usr/bin/true") 0 0 0) (sample_state TIOCM_DTR) 3
    (TIOCM_DTR ||| TIOCM_RTS) TTYHOOK_RTS_ON (by decide) (by decide) (Or.inl rfl)

/-- C6.  Pass-through: for every request code other than `TIOCMGET` and
`TIOCMSET`, every file descriptor, argument and state of the hook, the call
calls the real `ioctl` exactly once, with the same file descriptor, request
code and argument, returns what it returned, calls no trigger, and leaves
the state of the hook, the tracked bit mask included, as it was. -/
theorem C6_pass_through (w : World) (s : HookState) (fd : Int) (operation arg : Nat)
    (hg : operation ≠ TIOCMGET) (hs : operation ≠ TIOCMSET) :
    (ioctl w s fd operation arg).trace = [Event.real fd operation arg] ∧
    (ioctl w s fd operation arg).outcome
      = Outcome.returned (w.ioctl_real fd operation arg).1 ∧
    (ioctl w s fd operation arg).argp = (w.ioctl_real fd operation arg).2 ∧
    (ioctl w s fd operation arg).state = s := by
  rw [ioctl_other w s fd operation arg hg hs]
  exact ⟨rfl, rfl, rfl, rfl⟩

/-- C6, witness: the request `TCGETS` (0x5401). -/
theorem C6_pass_through_witness :
    (ioctl (sample_world none 0 0 0) (sample_state TIOCM_RTS) 3 0x5401 7).trace
      = [Event.real 3 0x5401 7] ∧
    (ioctl (sample_world none 0 0 0) (sample_state TIOCM_RTS) 3 0x5401 7).outcome
      = Outcome.returned ((sample_world none 0 0 0).ioctl_real 3 0x5401 7).1 ∧
    (ioctl (sample_world none 0 0 0) (sample_state TIOCM_RTS) 3 0x5401 7).argp
      = ((sample_world none 0 0 0).ioctl_real 3 0x5401 7).2 ∧
    (ioctl (sample_world none 0 0 0) (sample_state TIOCM_RTS) 3 0x5401 7).state
      = sample_state TIOCM_RTS :=
  C6_pass_through (sample_world none 0 0 0) (sample_state TIOCM_RTS) 3 0x5401 7
    (by decide) (by decide)

/-- C7, counterexample.  The real `ioctl` returns -1 and the tracked bit mask
changes all the same: a `TIOCMSET` that clears RTS from the tracked value
`TIOCM_RTS` leaves 0 tracked, and a `TIOCMGET` on a variable that holds 0
leaves 0 tracked. -/
theorem C7_failed_call_updates_baseline :
    ((sample_world none 0 (-1) 0).ioctl_real 3 TIOCMSET 0).1 = -1 ∧
    (ioctl (sample_world none 0 (-1) 0) (sample_state TIOCM_RTS) 3 TIOCMSET 0).outcome
      = Outcome.returned (-1) ∧
    (ioctl (sample_world none 0 (-1) 0) (sample_state TIOCM_RTS) 3 TIOCMSET 0).state.current_tiocm
      ≠ (sample_state TIOCM_RTS).current_tiocm ∧
    ((sample_world none 0 (-1) 0).ioctl_real 3 TIOCMGET 0).1 = -1 ∧
    (ioctl (sample_world none 0 (-1) 0) (sample_state TIOCM_RTS) 3 TIOCMGET 0).outcome
      = Outcome.returned (-1) ∧
    (ioctl (sample_world none 0 (-1) 0) (sample_state TIOCM_RTS) 3 TIOCMGET 0).state.current_tiocm
      ≠ (sample_state TIOCM_RTS).current_tiocm := by
  decide

/-- C7, amended.  When the real `ioctl` is called for a `TIOCMGET` or a
`TIOCMSET` and returns -1, the tracked bit mask is updated all the same: it
becomes the value found in `*argp` after that call, and the call returns -1
unless it is aborted.  When the real `ioctl` is not called, the tracked bit
mask is as before. -/
theorem C7_baseline_follows_every_call (w : World) (s : HookState) (fd : Int)
    (operation arg : Nat) (hop : operation = TIOCMGET ∨ operation = TIOCMSET)
    (hfail : (w.ioctl_real fd operation arg).1 = -1) :
    ((ioctl w s fd operation arg).trace.filter Event.is_real = [Event.real fd operation arg] ∧
      (ioctl w s fd operation arg).state.current_tiocm = (w.ioctl_real fd operation arg).2 ∧
      ((ioctl w s fd operation arg).outcome = Outcome.returned (-1) ∨
        (ioctl w s fd operation arg).outcome = Outcome.aborted)) ∨
    ((ioctl w s fd operation arg).trace.filter Event.is_real = [] ∧
      (ioctl w s fd operation arg).state.current_tiocm = s.current_tiocm) := by
  rcases ioctl_tracked_cases w s fd operation arg hop with h | h
  · rw [hfail] at h
    exact Or.inl h
  · exact Or.inr h

/-- C7, witness: the failing `TIOCMSET` of the counterexample. -/
theorem C7_baseline_follows_every_call_witness :
    ((ioctl (sample_world none 0 (-1) 0) (sample_state TIOCM_RTS) 3 TIOCMSET 0).trace.filter
        Event.is_real = [Event.real 3 TIOCMSET 0] ∧
      (ioctl (sample_world none 0 (-1) 0) (sample_state TIOCM_RTS) 3 TIOCMSET 0).state.current_tiocm
        = ((sample_world none 0 (-1) 0).ioctl_real 3 TIOCMSET 0).2 ∧
      ((ioctl (sample_world none 0 (-1) 0) (sample_state TIOCM_RTS) 3 TIOCMSET 0).outcome
          = Outcome.returned (-1) ∨
        (ioctl (sample_world none 0 (-1) 0) (sample_state TIOCM_RTS) 3 TIOCMSET 0).outcome
          = Outcome.aborted)) ∨
    ((ioctl (sample_world none 0 (-1) 0) (sample_state TIOCM_RTS) 3 TIOCMSET 0).trace.filter
        Event.is_real = [] ∧
      (ioctl (sample_world none 0 (-1) 0) (sample_state TIOCM_RTS) 3 TIOCMSET 0).state.current_tiocm
        = (sample_state TIOCM_RTS).current_tiocm) :=
  C7_baseline_follows_every_call (sample_world none 0 (-1) 0) (sample_state TIOCM_RTS) 3
    TIOCMSET 0 (Or.inr rfl) (by decide)

/-- C8.  State consistency: whenever a `TIOCMSET` call reaches the real
`ioctl`, it is with the call's own file descriptor and requested mask, and
the tracked bit mask after the call is the value found in `*argp` after the
real call; so, the real `TIOCMSET` leaving `*argp` as it found it (the
hypothesis on the world), the tracked bit mask is exactly the mask passed to
the call.  And every `TIOCMGET` call calls the real `ioctl`, tracks the bit
mask that came back through the argument, hands that mask to the caller and
returns what the real `ioctl` returned. -/
theorem C8_state_consistency (w : World) (s : HookState) (fd : Int) (arg : Nat) :
    (∀ (fd1 : Int) (request x : Nat),
      Event.real fd1 request x ∈ (ioctl w s fd TIOCMSET arg).trace →
        fd1 = fd ∧ request = TIOCMSET ∧ x = arg ∧
        (ioctl w s fd TIOCMSET arg).state.current_tiocm = (w.ioctl_real fd TIOCMSET arg).2) ∧
    ((w.ioctl_real fd TIOCMSET arg).2 = arg →
      ∀ (fd1 : Int) (request x : Nat),
        Event.real fd1 request x ∈ (ioctl w s fd TIOCMSET arg).trace →
          (ioctl w s fd TIOCMSET arg).state.current_tiocm = arg) ∧
    (ioctl w s fd TIOCMGET arg).trace = [Event.real fd TIOCMGET arg] ∧
    (ioctl w s fd TIOCMGET arg).state.current_tiocm = (w.ioctl_real fd TIOCMGET arg).2 ∧
    (ioctl w s fd TIOCMGET arg).argp = (w.ioctl_real fd TIOCMGET arg).2 ∧
    (ioctl w s fd TIOCMGET arg).outcome = Outcome.returned (w.ioctl_real fd TIOCMGET arg).1 := by
  have hset : ∀ (fd1 : Int) (request x : Nat),
      Event.real fd1 request x ∈ (ioctl w s fd TIOCMSET arg).trace →
        fd1 = fd ∧ request = TIOCMSET ∧ x = arg ∧
        (ioctl w s fd TIOCMSET arg).state.current_tiocm
          = (w.ioctl_real fd TIOCMSET arg).2 := by
    intro fd1 request x hmem
    rcases ioctl_tracked_cases w s fd TIOCMSET arg (Or.inr rfl) with h | h
    · have hm : Event.real fd1 request x ∈
          (ioctl w s fd TIOCMSET arg).trace.filter Event.is_real :=
        List.mem_filter.2 ⟨hmem, rfl⟩
      rw [h.1, List.mem_singleton] at hm
      injection hm with e1 e2 e3
      exact ⟨e1, e2, e3, h.2.1⟩
    · exact absurd h.1 (filter_real_of_mem _ fd1 request x hmem)
  refine ⟨hset, ?_, ?_⟩
  · intro hconst fd1 request x hmem
    exact (hset fd1 request x hmem).2.2.2.trans hconst
  · rw [ioctl_get]
    exact ⟨rfl, rfl, rfl, rfl⟩

/-- C8, witness: a `TIOCMSET` that clears RTS from the tracked value
`TIOCM_RTS` reaches the real `ioctl`, which leaves the request in place, and
0 is tracked afterwards. -/
theorem C8_state_consistency_witness :
    ((3 : Int) = 3 ∧ TIOCMSET = TIOCMSET ∧ (0 : Nat) = 0 ∧
      (ioctl (sample_world none 0 0 0) (sample_state TIOCM_RTS) 3 TIOCMSET 0).state.current_tiocm
        = ((sample_world none 0 0 0).ioctl_real 3 TIOCMSET 0).2) ∧
    (ioctl (sample_world none 0 0 0) (sample_state TIOCM_RTS) 3 TIOCMSET 0).state.current_tiocm
      = 0 :=
  ⟨(C8_state_consistency (sample_world none 0 0 0) (sample_state TIOCM_RTS) 3 0).1
      3 TIOCMSET 0 (by decide),
   (C8_state_consistency (sample_world none 0 0 0) (sample_state TIOCM_RTS) 3 0).2.1
      (by decide) 3 TIOCMSET 0 (by decide)⟩

/-- C9.  Simultaneous change: for every tracked value, 0 included, and every
`TIOCMSET` whose mask differs from it in the RTS bit and in the DTR bit, the
call is aborted by a failing assertion before `trigger` or the real `ioctl`
is called. -/
theorem C9_simultaneous_change_is_fatal (w : World) (s : HookState) (fd : Int) (arg : Nat)
    (hrts : s.current_tiocm &&& TIOCM_RTS ≠ arg &&& TIOCM_RTS)
    (hdtr : s.current_tiocm &&& TIOCM_DTR ≠ arg &&& TIOCM_DTR) :
    (ioctl w s fd TIOCMSET arg).outcome = Outcome.aborted ∧
    (ioctl w s fd TIOCMSET arg).trace = [] := by
  by_cases h0 : s.current_tiocm = 0
  · rw [ioctl_set_unknown w s fd arg h0]
    exact ⟨rfl, rfl⟩
  · have h1 : s.current_tiocm.testBit RTS_BIT ≠ arg.testBit RTS_BIT :=
      fun h => hrts (and_two_pow_congr _ _ 2 h)
    have h2 : s.current_tiocm.testBit DTR_BIT ≠ arg.testBit DTR_BIT :=
      fun h => hdtr (and_two_pow_congr _ _ 1 h)
    have hc : ioctl_classify s.current_tiocm arg = none := by
      rw [ioctl_classify_eq_spec]
      exact spec_classify_both _ _ h1 h2
    rw [ioctl_set_fatal w s fd arg h0 hc]
    exact ⟨rfl, rfl⟩

/-- C9, witness: RTS and DTR are both tracked as set and the request clears
both. -/
theorem C9_simultaneous_change_is_fatal_witness :
    (ioctl (sample_world (some "/usr/bin/true") 0 0 0) (sample_state (TIOCM_RTS ||| TIOCM_DTR))
      3 TIOCMSET 0).outcome = Outcome.aborted ∧
    (ioctl (sample_world (some "/usr/bin/true") 0 0 0) (sample_state (TIOCM_RTS ||| TIOCM_DTR))
      3 TIOCMSET 0).trace = [] :=
  C9_simultaneous_change_is_fatal (sample_world (some "/usr/bin/true") 0 0 0)
    (sample_state (TIOCM_RTS ||| TIOCM_DTR)) 3 0 (by decide) (by decide)

/-- C10.  Classifier correctness: on a known baseline (a tracked value other
than 0) the action the `TIOCMSET` branch computes is the one of the
reference classifier `spec_classify`; where the reference is fatal the call
is aborted before anything is done; and where the reference gives an action,
`trigger` is called with exactly that action, once, or not at all when the
action is `TTYHOOK_NONE`.  So one `TIOCMSET` never stands for more than one
action. -/
theorem C10_classifier_matches_reference (w : World) (s : HookState) (fd : Int) (arg : Nat)
    (hknown : s.current_tiocm ≠ 0) :
    ioctl_classify s.current_tiocm arg = spec_classify s.current_tiocm arg ∧
    (spec_classify s.current_tiocm arg = none →
      (ioctl w s fd TIOCMSET arg).outcome = Outcome.aborted ∧
      (ioctl w s fd TIOCMSET arg).trace = []) ∧
    (∀ action, spec_classify s.current_tiocm arg = some action →
      (ioctl w s fd TIOCMSET arg).trace.filter Event.is_trigger
        = if action = TTYHOOK_NONE then [] else [Event.trigger action]) ∧
    ((ioctl w s fd TIOCMSET arg).trace.filter Event.is_trigger).length ≤ 1 := by
  have heq := ioctl_classify_eq_spec s.current_tiocm arg
  refine ⟨heq, ?_, ?_, ?_⟩
  · intro hnone
    rw [ioctl_set_fatal w s fd arg hknown (heq.trans hnone)]
    exact ⟨rfl, rfl⟩
  · intro action hsome
    exact ioctl_set_triggers w s fd arg action hknown (heq.trans hsome)
  · cases hc : ioctl_classify s.current_tiocm arg with
    | none =>
      rw [ioctl_set_fatal w s fd arg hknown hc]
      exact Nat.zero_le 1
    | some action =>
      rw [ioctl_set_triggers w s fd arg action hknown hc]
      split_ifs
      · exact Nat.zero_le 1
      · exact Nat.le_refl 1

/-- C10, witness: RTS and DTR are tracked as set and the request clears
DTR. -/
theorem C10_classifier_matches_reference_witness :
    ioctl_classify (sample_state (TIOCM_RTS ||| TIOCM_DTR)).current_tiocm TIOCM_RTS
      = spec_classify (sample_state (TIOCM_RTS ||| TIOCM_DTR)).current_tiocm TIOCM_RTS ∧
    (spec_classify (sample_state (TIOCM_RTS ||| TIOCM_DTR)).current_tiocm TIOCM_RTS = none →
      (ioctl (sample_world none 0 0 0) (sample_state (TIOCM_RTS ||| TIOCM_DTR)) 3 TIOCMSET
        TIOCM_RTS).outcome = Outcome.aborted ∧
      (ioctl (sample_world none 0 0 0) (sample_state (TIOCM_RTS ||| TIOCM_DTR)) 3 TIOCMSET
        TIOCM_RTS).trace = []) ∧
    (∀ action,
      spec_classify (sample_state (TIOCM_RTS ||| TIOCM_DTR)).current_tiocm TIOCM_RTS
        = some action →
      (ioctl (sample_world none 0 0 0) (sample_state (TIOCM_RTS ||| TIOCM_DTR)) 3 TIOCMSET
        TIOCM_RTS).trace.filter Event.is_trigger
        = if action = TTYHOOK_NONE then [] else [Event.trigger action]) ∧
    ((ioctl (sample_world none 0 0 0) (sample_state (TIOCM_RTS ||| TIOCM_DTR)) 3 TIOCMSET
      TIOCM_RTS).trace.filter Event.is_trigger).length ≤ 1 :=
  C10_classifier_matches_reference (sample_world none 0 0 0)
    (sample_state (TIOCM_RTS ||| TIOCM_DTR)) 3 TIOCM_RTS (by decide)

/-- C11, counterexample.  The first call finds `TTYHOOK_SCRIPT` absent and
answers false; the variable is then set to `/usr/bin/true`, and the second
call reads it and runs `/usr/bin/true 'rts_on'`: it does not behave as
unconfigured.  The same happens after a first call that found the variable
empty. -/
theorem C11_unconfigured_is_read_again :
    (trigger (sample_world none 0 0 0) HookState.init.trigger_state TTYHOOK_RTS_ON).trace
      = [Event.trigger TTYHOOK_RTS_ON, Event.getenv, Event.log LogMsg.no_value] ∧
    (trigger (sample_world none 0 0 0) HookState.init.trigger_state TTYHOOK_RTS_ON).outcome
      = Outcome.returned false ∧
    (trigger (sample_world (some "/usr/bin/true") 0 0 0)
      (trigger (sample_world none 0 0 0) HookState.init.trigger_state TTYHOOK_RTS_ON).state
      TTYHOOK_RTS_ON).trace
      = [Event.trigger TTYHOOK_RTS_ON, Event.getenv,
          Event.system (String.toList "/usr/bin/true 'rts_on'")] ∧
    (trigger (sample_world (some "/usr/bin/true") 0 0 0)
      (trigger (sample_world none 0 0 0) HookState.init.trigger_state TTYHOOK_RTS_ON).state
      TTYHOOK_RTS_ON).outcome = Outcome.returned true ∧
    (trigger (sample_world (some "") 0 0 0) HookState.init.trigger_state TTYHOOK_RTS_ON).trace
      = [Event.trigger TTYHOOK_RTS_ON, Event.getenv, Event.log LogMsg.empty_value] ∧
    (trigger (sample_world (some "/usr/bin/true") 0 0 0)
      (trigger (sample_world (some "") 0 0 0) HookState.init.trigger_state TTYHOOK_RTS_ON).state
      TTYHOOK_RTS_ON).outcome = Outcome.returned true := by
  decide

/-- C11, amended.  A script path of 1 to 1023 bytes that a call stored is
the configuration of every later call, whatever the environment holds then:
the static variables never change again, `getenv` is not called again, and
the command that is run is that path with the token of the action.  A call
that finds the variable absent or empty stores nothing: the static variables
are as before the call, so the next call reads the environment again. -/
theorem C11_stored_path_is_cached (w0 w : World) (value : List Char)
    (a0 action : ttyhook_action_t) (calls : List (World × ttyhook_action_t))
    (henv : w0.getenv = some value)
    (ha0 : a0 ≠ TTYHOOK_NONE) (ha : action ≠ TTYHOOK_NONE) :
    (0 < strnlen value 1024 → strnlen value 1024 < 1024 →
      trigger_calls (trigger w0 HookState.init.trigger_state a0).state calls
        = (trigger w0 HookState.init.trigger_state a0).state ∧
      ∃ command, spec_command (c_str value) action = some command ∧
        (trigger w (trigger_calls (trigger w0 HookState.init.trigger_state a0).state calls)
          action).trace.filter Event.is_system = [Event.system command] ∧
        (trigger w (trigger_calls (trigger w0 HookState.init.trigger_state a0).state calls)
          action).trace.filter Event.is_getenv = [] ∧
        (trigger w (trigger_calls (trigger w0 HookState.init.trigger_state a0).state calls)
          action).outcome = Outcome.returned (decide (WEXITSTATUS (w.system command) = 0))) ∧
    (strnlen value 1024 = 0 →
      (trigger w0 HookState.init.trigger_state a0).state = HookState.init.trigger_state) ∧
    (w.getenv = none →
      (trigger w HookState.init.trigger_state a0).state = HookState.init.trigger_state) := by
  refine ⟨?_, ?_, ?_⟩
  · intro hpos hlen
    obtain ⟨_, _, _, hst, _, _⟩ := trigger_first w0 value a0 henv hpos hlen ha0
    have hcalls := trigger_calls_stored _ _ hst calls
    rw [hcalls]
    obtain ⟨command, h1, h2, _, h4, h5⟩ := trigger_stored w _ (c_str value) action hst ha
    exact ⟨rfl, command, h1, h4, h5, h2⟩
  · intro hv
    rw [trigger_empty w0 _ value a0 henv hv rfl ha0]
  · intro hnone
    rw [trigger_unset w _ a0 hnone rfl ha0]

/-- C11, witness: the first call stores `/usr/bin/true`; then the variable is
unset, a call is made, and the next call still runs `/usr/bin/true`.  A first
call on an empty or an absent variable leaves the initial state. -/
theorem C11_stored_path_is_cached_witness :
    (trigger_calls (trigger (sample_world (some "/usr/bin/true") 0 0 0)
        HookState.init.trigger_state TTYHOOK_RTS_ON).state
        [(sample_world none 0 0 0, TTYHOOK_RTS_OFF)]
      = (trigger (sample_world (some "/usr/bin/true") 0 0 0)
          HookState.init.trigger_state TTYHOOK_RTS_ON).state ∧
      ∃ command,
        spec_command (c_str (String.toList "/usr/bin/true")) TTYHOOK_DTR_ON = some command ∧
        (trigger (sample_world none 256 0 0)
          (trigger_calls (trigger (sample_world (some "/usr/bin/true") 0 0 0)
            HookState.init.trigger_state TTYHOOK_RTS_ON).state
            [(sample_world none 0 0 0, TTYHOOK_RTS_OFF)])
          TTYHOOK_DTR_ON).trace.filter Event.is_system = [Event.system command] ∧
        (trigger (sample_world none 256 0 0)
          (trigger_calls (trigger (sample_world (some "/usr/bin/true") 0 0 0)
            HookState.init.trigger_state TTYHOOK_RTS_ON).state
            [(sample_world none 0 0 0, TTYHOOK_RTS_OFF)])
          TTYHOOK_DTR_ON).trace.filter Event.is_getenv = [] ∧
        (trigger (sample_world none 256 0 0)
          (trigger_calls (trigger (sample_world (some "/usr/bin/true") 0 0 0)
            HookState.init.trigger_state TTYHOOK_RTS_ON).state
            [(sample_world none 0 0 0, TTYHOOK_RTS_OFF)])
          TTYHOOK_DTR_ON).outcome
          = Outcome.returned
              (decide (WEXITSTATUS ((sample_world none 256 0 0).system command) = 0))) ∧
    (trigger (sample_world (some "") 0 0 0) HookState.init.trigger_state TTYHOOK_RTS_ON).state
      = HookState.init.trigger_state ∧
    (trigger (sample_world none 0 0 0) HookState.init.trigger_state TTYHOOK_RTS_ON).state
      = HookState.init.trigger_state :=
  ⟨(C11_stored_path_is_cached (sample_world (some "/usr/bin/true") 0 0 0)
      (sample_world none 256 0 0) (String.toList "/usr/bin/true") TTYHOOK_RTS_ON TTYHOOK_DTR_ON
      [(sample_world none 0 0 0, TTYHOOK_RTS_OFF)] rfl (by decide) (by decide)).1
      (by decide) (by decide),
   (C11_stored_path_is_cached (sample_world (some "") 0 0 0)
      (sample_world none 0 0 0) (String.toList "") TTYHOOK_RTS_ON TTYHOOK_DTR_ON
      [] rfl (by decide) (by decide)).2.1 (by decide),
   (C11_stored_path_is_cached (sample_world (some "/usr/bin/true") 0 0 0)
      (sample_world none 0 0 0) (String.toList "/usr/bin/true") TTYHOOK_RTS_ON TTYHOOK_DTR_ON
      [] rfl (by decide) (by decide)).2.2 rfl⟩

/-- C12, the failing input.  `TTYHOOK_SCRIPT` holds 1024 bytes.  The first
call answers false, but it has already written 1024 to `script_file_size`
(line 47), so the second call does not load anything, finds
`script_file_size > 0`, builds the command ` 'rts_on'` from the empty buffer
and hands it to `system`; with a status of 0 it answers true. -/
theorem C12_over_length_runs_a_command :
    strnlen (String.toList long_value) 1024 = 1024 ∧
    (trigger (sample_world (some long_value) 0 0 0) HookState.init.trigger_state
      TTYHOOK_RTS_ON).outcome = Outcome.returned false ∧
    (trigger (sample_world (some long_value) 0 0 0) HookState.init.trigger_state
      TTYHOOK_RTS_ON).state.script_file_size = 1024 ∧
    (trigger (sample_world (some long_value) 0 0 0)
      (trigger (sample_world (some long_value) 0 0 0) HookState.init.trigger_state
        TTYHOOK_RTS_ON).state TTYHOOK_RTS_ON).trace
      = [Event.trigger TTYHOOK_RTS_ON, Event.system (String.toList " 'rts_on'")] ∧
    (trigger (sample_world (some long_value) 0 0 0)
      (trigger (sample_world (some long_value) 0 0 0) HookState.init.trigger_state
        TTYHOOK_RTS_ON).state TTYHOOK_RTS_ON).outcome = Outcome.returned true := by
  set_option maxRecDepth 100000 in decide

/-- C13.  Command format: when `TTYHOOK_SCRIPT` holds a path `p` of 1 to 1023
bytes, the first call, for each of the four actions, hands to `system`
exactly `p`, one space, and the token of the action between single quotes;
and so does every later call, for its own action, whatever was called in
between and whatever the environment holds by then.  Nothing is cut off. -/
theorem C13_command_format (w w1 : World) (p : List Char)
    (action a1 : ttyhook_action_t) (calls : List (World × ttyhook_action_t))
    (hp : ∀ c ∈ p, c ≠ NUL) (hmin : 1 ≤ p.length) (hmax : p.length ≤ 1023)
    (henv : w.getenv = some p)
    (ha : action ≠ TTYHOOK_NONE) (ha1 : a1 ≠ TTYHOOK_NONE) :
    (∃ token, action_token action = some token ∧
      (trigger w HookState.init.trigger_state action).trace.filter Event.is_system
        = [Event.system (p ++ String.toList " " ++ String.toList "'" ++ String.toList token
            ++ String.toList "'")]) ∧
    (∃ token, action_token a1 = some token ∧
      (trigger w1 (trigger_calls (trigger w HookState.init.trigger_state action).state calls)
        a1).trace.filter Event.is_system
        = [Event.system (p ++ String.toList " " ++ String.toList "'" ++ String.toList token
            ++ String.toList "'")]) := by
  have hcstr : c_str p = p := c_str_of_no_nul p hp
  have hcfg : configured w HookState.init.trigger_state p :=
    Or.inr ⟨rfl, p, henv, hcstr, by omega, by omega⟩
  have htoken : ∀ (a : ttyhook_action_t) (command : List Char),
      spec_command p a = some command →
      ∃ token, action_token a = some token ∧
        command = p ++ String.toList " " ++ String.toList "'" ++ String.toList token
          ++ String.toList "'" := by
    intro a command hcmd
    unfold spec_command at hcmd
    cases htok : action_token a with
    | none => rw [htok] at hcmd; exact absurd hcmd (by simp)
    | some token =>
      rw [htok, Option.map_some'] at hcmd
      exact ⟨token, rfl, (Option.some.inj hcmd).symm⟩
  obtain ⟨command, hspec, _, hst, hsys⟩ :=
    trigger_configured w HookState.init.trigger_state p action hcfg ha
  have hcalls := trigger_calls_stored _ _ hst calls
  obtain ⟨command1, hspec1, _, _, hsys1, _⟩ :=
    trigger_stored w1 _ p a1 hst ha1
  obtain ⟨token, htok, hcmd⟩ := htoken action command hspec
  obtain ⟨token1, htok1, hcmd1⟩ := htoken a1 command1 hspec1
  refine ⟨⟨token, htok, ?_⟩, ⟨token1, htok1, ?_⟩⟩
  · rw [hsys, hcmd]
  · rw [hcalls, hsys1, hcmd1]

/-- C13, witness: the path `/usr/local/bin/ptt`, first `TTYHOOK_DTR_OFF`,
later `TTYHOOK_RTS_ON` with the variable unset. -/
theorem C13_command_format_witness :
    (∃ token, action_token TTYHOOK_DTR_OFF = some token ∧
      (trigger (sample_world (some "/usr/local/bin/ptt") 0 0 0) HookState.init.trigger_state
        TTYHOOK_DTR_OFF).trace.filter Event.is_system
        = [Event.system (String.toList "/usr/local/bin/ptt" ++ String.toList " "
            ++ String.toList "'" ++ String.toList token ++ String.toList "'")]) ∧
    (∃ token, action_token TTYHOOK_RTS_ON = some token ∧
      (trigger (sample_world none 0 0 0)
        (trigger_calls (trigger (sample_world (some "/usr/local/bin/ptt") 0 0 0)
          HookState.init.trigger_state TTYHOOK_DTR_OFF).state
          [(sample_world none 256 0 0, TTYHOOK_DTR_ON)])
        TTYHOOK_RTS_ON).trace.filter Event.is_system
        = [Event.system (String.toList "/usr/local/bin/ptt" ++ String.toList " "
            ++ String.toList "'" ++ String.toList token ++ String.toList "'")]) :=
  C13_command_format (sample_world (some "/usr/local/bin/ptt") 0 0 0) (sample_world none 0 0 0)
    (String.toList "/usr/local/bin/ptt") TTYHOOK_DTR_OFF TTYHOOK_RTS_ON
    [(sample_world none 256 0 0, TTYHOOK_DTR_ON)]
    (by decide) (by decide) (by decide) rfl (by decide) (by decide)

/-- C14.  Exit status mapping: with a configured script and an action other
than `TTYHOOK_NONE`, the call runs one command and returns; it returns true
exactly when the exit status of that command, `WEXITSTATUS` of what `system`
returned, is zero; so for a command that exits with the code `e`, from 0 to
255, it returns true for `e = 0` and false for every other `e`. -/
theorem C14_exit_status_mapping (w : World) (s : TriggerState) (path : List Char)
    (action : ttyhook_action_t) (hc : configured w s path) (ha : action ≠ TTYHOOK_NONE) :
    ∃ command, (trigger w s action).trace.filter Event.is_system = [Event.system command] ∧
      ((trigger w s action).outcome = Outcome.returned true ∨
        (trigger w s action).outcome = Outcome.returned false) ∧
      ((trigger w s action).outcome = Outcome.returned true ↔
        WEXITSTATUS (w.system command) = 0) ∧
      (∀ e : Nat, e < 256 → w.system command = Int.ofNat (256 * e) →
        (trigger w s action).outcome = Outcome.returned (decide (e = 0))) := by
  obtain ⟨command, _, hout, _, hsys⟩ := trigger_configured w s path action hc ha
  refine ⟨command, hsys, ?_, ?_, ?_⟩
  · rw [hout]
    by_cases hz : WEXITSTATUS (w.system command) = 0 <;> simp [hz]
  · rw [hout]
    by_cases hz : WEXITSTATUS (w.system command) = 0 <;> simp [hz]
  · intro e he hst
    rw [hout, hst, wexitstatus_normal e he]
    by_cases h0 : e = 0 <;> simp [h0]

/-- C14, witness: the script exits with the code 3, so `system` returns
0x0300, and the call returns false. -/
theorem C14_exit_status_mapping_witness :
    ∃ command,
      (trigger (sample_world (some "/usr/local/bin/ptt") 768 0 0) HookState.init.trigger_state
        TTYHOOK_RTS_ON).trace.filter Event.is_system = [Event.system command] ∧
      ((trigger (sample_world (some "/usr/local/bin/ptt") 768 0 0) HookState.init.trigger_state
          TTYHOOK_RTS_ON).outcome = Outcome.returned true ∨
        (trigger (sample_world (some "/usr/local/bin/ptt") 768 0 0) HookState.init.trigger_state
          TTYHOOK_RTS_ON).outcome = Outcome.returned false) ∧
      ((trigger (sample_world (some "/usr/local/bin/ptt") 768 0 0) HookState.init.trigger_state
          TTYHOOK_RTS_ON).outcome = Outcome.returned true ↔
        WEXITSTATUS ((sample_world (some "/usr/local/bin/ptt") 768 0 0).system command) = 0) ∧
      (∀ e : Nat, e < 256 →
        (sample_world (some "/usr/local/bin/ptt") 768 0 0).system command
          = Int.ofNat (256 * e) →
        (trigger (sample_world (some "/usr/local/bin/ptt") 768 0 0) HookState.init.trigger_state
          TTYHOOK_RTS_ON).outcome = Outcome.returned (decide (e = 0))) :=
  C14_exit_status_mapping (sample_world (some "/usr/local/bin/ptt") 768 0 0)
    HookState.init.trigger_state (String.toList "/usr/local/bin/ptt") TTYHOOK_RTS_ON
    (Or.inr ⟨rfl, String.toList "/usr/local/bin/ptt", rfl, by decide, by decide, by decide⟩)
    (by decide)

/-- C15, counterexample.  `TTYHOOK_SCRIPT` is absent throughout.  A
`TIOCMGET` answers the bit mask 0, and the next `TIOCMSET` requests RTS: from
0 to `TIOCM_RTS` is the on action `TTYHOOK_RTS_ON`, for the classifier of the
code and for the reference alike, but the call is not vetoed with `EINVAL`:
with the tracked value 0 it never reaches the classification and is aborted
by the assertion of line 176. -/
theorem C15_on_request_aborts_at_zero :
    (ioctl_calls HookState.init
      [{ world := sample_world none 0 0 0, fd := 3, operation := TIOCMGET, arg := 0 }]
      ).current_tiocm = 0 ∧
    ioctl_classify 0 TIOCM_RTS = some TTYHOOK_RTS_ON ∧
    spec_classify 0 TIOCM_RTS = some TTYHOOK_RTS_ON ∧
    (ioctl (sample_world none 0 0 0)
      (ioctl_calls HookState.init
        [{ world := sample_world none 0 0 0, fd := 3, operation := TIOCMGET, arg := 0 }])
      3 TIOCMSET TIOCM_RTS).outcome = Outcome.aborted ∧
    (ioctl (sample_world none 0 0 0)
      (ioctl_calls HookState.init
        [{ world := sample_world none 0 0 0, fd := 3, operation := TIOCMGET, arg := 0 }])
      3 TIOCMSET TIOCM_RTS).outcome ≠ Outcome.returned EINVAL := by
  decide

/-- C15, amended.  Unconfigured default on a tracked value other than 0:
`TTYHOOK_SCRIPT` is absent in every call of the run.  After any sequence of
calls of the hook, a `TIOCMSET` on a tracked value other than 0 that the hook
classifies as an on action returns `EINVAL` without calling the real `ioctl`
and leaves the whole state of the hook as it was, so the same request is
vetoed again at every repetition; and one that it classifies as an off action
calls the real `ioctl` first, tracks the value found in `*argp` after that
call and returns what the real `ioctl` returned, with the warning logged. -/
theorem C15_unconfigured_default (calls : List Call) (w : World) (fd : Int) (arg : Nat)
    (action : ttyhook_action_t)
    (hrun : ∀ c ∈ calls, c.world.getenv = none) (hw : w.getenv = none)
    (hknown : (ioctl_calls HookState.init calls).current_tiocm ≠ 0)
    (hc : ioctl_classify (ioctl_calls HookState.init calls).current_tiocm arg = some action) :
    ((action = TTYHOOK_RTS_ON ∨ action = TTYHOOK_DTR_ON) →
      ioctl w (ioctl_calls HookState.init calls) fd TIOCMSET arg =
        { outcome := Outcome.returned EINVAL,
          state := ioctl_calls HookState.init calls,
          argp := arg,
          trace := [Event.trigger action, Event.getenv, Event.log LogMsg.no_value,
            Event.log LogMsg.on_cancelled] }) ∧
    ((action = TTYHOOK_RTS_OFF ∨ action = TTYHOOK_DTR_OFF) →
      ioctl w (ioctl_calls HookState.init calls) fd TIOCMSET arg =
        { outcome := Outcome.returned (w.ioctl_real fd TIOCMSET arg).1,
          state := { ioctl_calls HookState.init calls with
            current_tiocm := (w.ioctl_real fd TIOCMSET arg).2 },
          argp := (w.ioctl_real fd TIOCMSET arg).2,
          trace := [Event.real fd TIOCMSET arg, Event.trigger action, Event.getenv,
            Event.log LogMsg.no_value, Event.log LogMsg.off_not_cancellable] }) := by
  have hsize : (ioctl_calls HookState.init calls).trigger_state.script_file_size = 0 := by
    rw [ioctl_calls_unset HookState.init calls hrun rfl]
    rfl
  constructor
  · intro ha
    have hne : action ≠ TTYHOOK_NONE := by
      rcases ha with h | h <;> rw [h] <;> decide
    rw [ioctl_set_on w _ fd arg action hknown hc ha, trigger_unset w _ action hw hsize hne]
    rfl
  · intro ha
    have hne : action ≠ TTYHOOK_NONE := by
      rcases ha with h | h <;> rw [h] <;> decide
    rw [ioctl_set_off w _ fd arg action hknown hc ha, trigger_unset w _ action hw hsize hne]
    rfl

/-- C15, witness.  On action: a `TIOCMGET` answers `TIOCM_DTR` and the
request for RTS in addition is vetoed.  Off action: a `TIOCMGET` answers
`TIOCM_DTR` and `TIOCM_RTS` and the request that drops RTS commits. -/
theorem C15_unconfigured_default_witness :
    ioctl (sample_world none 0 0 0)
        (ioctl_calls HookState.init
          [{ world := sample_world none 0 0 TIOCM_DTR, fd := 3, operation := TIOCMGET,
             arg := 0 }])
        3 TIOCMSET (TIOCM_DTR ||| TIOCM_RTS) =
      { outcome := Outcome.returned EINVAL,
        state := ioctl_calls HookState.init
          [{ world := sample_world none 0 0 TIOCM_DTR, fd := 3, operation := TIOCMGET,
             arg := 0 }],
        argp := TIOCM_DTR ||| TIOCM_RTS,
        trace := [Event.trigger TTYHOOK_RTS_ON, Event.getenv, Event.log LogMsg.no_value,
          Event.log LogMsg.on_cancelled] } ∧
    ioctl (sample_world none 0 0 0)
        (ioctl_calls HookState.init
          [{ world := sample_world none 0 0 (TIOCM_DTR ||| TIOCM_RTS), fd := 3,
             operation := TIOCMGET, arg := 0 }])
        3 TIOCMSET TIOCM_DTR =
      { outcome := Outcome.returned ((sample_world none 0 0 0).ioctl_real 3 TIOCMSET TIOCM_DTR).1,
        state := { ioctl_calls HookState.init
            [{ world := sample_world none 0 0 (TIOCM_DTR ||| TIOCM_RTS), fd := 3,
               operation := TIOCMGET, arg := 0 }] with
          current_tiocm := ((sample_world none 0 0 0).ioctl_real 3 TIOCMSET TIOCM_DTR).2 },
        argp := ((sample_world none 0 0 0).ioctl_real 3 TIOCMSET TIOCM_DTR).2,
        trace := [Event.real 3 TIOCMSET TIOCM_DTR, Event.trigger TTYHOOK_RTS_OFF, Event.getenv,
          Event.log LogMsg.no_value, Event.log LogMsg.off_not_cancellable] } :=
  ⟨(C15_unconfigured_default
      [{ world := sample_world none 0 0 TIOCM_DTR, fd := 3, operation := TIOCMGET, arg := 0 }]
      (sample_world none 0 0 0) 3 (TIOCM_DTR ||| TIOCM_RTS) TTYHOOK_RTS_ON
      (by intro c hc; rw [List.mem_singleton] at hc; rw [hc]; rfl)
      rfl (by decide) (by decide)).1 (Or.inl rfl),
   (C15_unconfigured_default
      [{ world := sample_world none 0 0 (TIOCM_DTR ||| TIOCM_RTS), fd := 3,
         operation := TIOCMGET, arg := 0 }]
      (sample_world none 0 0 0) 3 TIOCM_DTR TTYHOOK_RTS_OFF
      (by intro c hc; rw [List.mem_singleton] at hc; rw [hc]; rfl)
      rfl (by decide) (by decide)).2 (Or.inl rfl)⟩

/-- C16, the failing input.  The harness step after a `TIOCMGET` that
succeeded and returned the bit mask 0: in either toggle mode the request is
0 with one bit set, the real `ioctl` would return 0, and the `TIOCMSET`
through the hook is aborted by the assertion of line 176. -/
theorem C16_harness_aborts_after_zero :
    (ioctl (sample_world (some "/usr/bin/true") 0 0 0) HookState.init 3 TIOCMGET 0).outcome
      = Outcome.returned 0 ∧
    (ioctl (sample_world (some "/usr/bin/true") 0 0 0) HookState.init 3 TIOCMGET 0).argp = 0 ∧
    harness_toggle true false 0 = TIOCM_RTS ∧
    harness_toggle false true 0 = TIOCM_DTR ∧
    ((sample_world (some "/usr/bin/true") 0 0 0).ioctl_real 3 TIOCMSET
      (harness_toggle true false 0)).1 ≠ -1 ∧
    (ioctl (sample_world (some "/usr/bin/true") 0 0 0)
      (ioctl (sample_world (some "/usr/bin/true") 0 0 0) HookState.init 3 TIOCMGET 0).state
      3 TIOCMSET (harness_toggle true false 0)).outcome = Outcome.aborted ∧
    (ioctl (sample_world (some "/usr/bin/true") 0 0 0)
      (ioctl (sample_world (some "/usr/bin/true") 0 0 0) HookState.init 3 TIOCMGET 0).state
      3 TIOCMSET (harness_toggle false true 0)).outcome = Outcome.aborted := by
  decide

/-- C17, counterexample.  The script is killed by signal 9: `system` returns
the status 9, which is not a normal termination, and the call returns
true. -/
theorem C17_signal_counts_as_success :
    WTERMSIG 9 = 9 ∧ WIFEXITED 9 = false ∧ WEXITSTATUS 9 = 0 ∧
    (trigger (sample_world (some "/usr/local/bin/ptt") 9 0 0) HookState.init.trigger_state
      TTYHOOK_RTS_ON).trace
      = [Event.trigger TTYHOOK_RTS_ON, Event.getenv,
          Event.system (String.toList "/usr/local/bin/ptt 'rts_on'")] ∧
    (trigger (sample_world (some "/usr/local/bin/ptt") 9 0 0) HookState.init.trigger_state
      TTYHOOK_RTS_ON).outcome = Outcome.returned true := by
  decide

/-- C17, amended.  For every status that `system` returns for the command of
a configured script, the call returns true exactly when bits 8 to 15 of the
status are zero, whatever its other bits are; in particular it returns false
when `system` returns -1. -/
theorem C17_only_the_exit_byte_is_read (w : World) (s : TriggerState) (path : List Char)
    (action : ttyhook_action_t) (hc : configured w s path) (ha : action ≠ TTYHOOK_NONE) :
    ∃ command, (trigger w s action).trace.filter Event.is_system = [Event.system command] ∧
      ((trigger w s action).outcome = Outcome.returned true ∨
        (trigger w s action).outcome = Outcome.returned false) ∧
      ((trigger w s action).outcome = Outcome.returned true ↔
        ((w.system command % 4294967296).toNat / 256) % 256 = 0) ∧
      (w.system command = -1 → (trigger w s action).outcome = Outcome.returned false) := by
  obtain ⟨command, _, hout, _, hsys⟩ := trigger_configured w s path action hc ha
  refine ⟨command, hsys, ?_, ?_, ?_⟩
  · rw [hout]
    by_cases hz : WEXITSTATUS (w.system command) = 0 <;> simp [hz]
  · rw [hout, ← wexitstatus_eq_zero_iff]
    by_cases hz : WEXITSTATUS (w.system command) = 0 <;> simp [hz]
  · intro hm
    have h255 : WEXITSTATUS (-1) = 255 := by decide
    rw [hout, hm, h255]
    rfl

/-- C17, witness: `system` returns -1. -/
theorem C17_only_the_exit_byte_is_read_witness :
    ∃ command,
      (trigger (sample_world (some "/usr/local/bin/ptt") (-1) 0 0) HookState.init.trigger_state
        TTYHOOK_RTS_ON).trace.filter Event.is_system = [Event.system command] ∧
      ((trigger (sample_world (some "/usr/local/bin/ptt") (-1) 0 0) HookState.init.trigger_state
          TTYHOOK_RTS_ON).outcome = Outcome.returned true ∨
        (trigger (sample_world (some "/usr/local/bin/ptt") (-1) 0 0) HookState.init.trigger_state
          TTYHOOK_RTS_ON).outcome = Outcome.returned false) ∧
      ((trigger (sample_world (some "/usr/local/bin/ptt") (-1) 0 0) HookState.init.trigger_state
          TTYHOOK_RTS_ON).outcome = Outcome.returned true ↔
        (((sample_world (some "/usr/local/bin/ptt") (-1) 0 0).system command
          % 4294967296).toNat / 256) % 256 = 0) ∧
      ((sample_world (some "/usr/local/bin/ptt") (-1) 0 0).system command = -1 →
        (trigger (sample_world (some "/usr/local/bin/ptt") (-1) 0 0) HookState.init.trigger_state
          TTYHOOK_RTS_ON).outcome = Outcome.returned false) :=
  C17_only_the_exit_byte_is_read (sample_world (some "/usr/local/bin/ptt") (-1) 0 0)
    HookState.init.trigger_state (String.toList "/usr/local/bin/ptt") TTYHOOK_RTS_ON
    (Or.inr ⟨rfl, String.toList "/usr/local/bin/ptt", rfl, by decide, by decide, by decide⟩)
    (by decide)

/-- C18.  Assertions inside `trigger`: after any sequence of earlier calls,
in any worlds, a call with an action other than `TTYHOOK_NONE` never fails
an assertion.  When it stores a value, the index `script_file_size` is
inside the 1024 bytes of the buffer and the byte there is 0 (line 59); when
it goes on to build the command, `script_file_size` is positive (line 63);
the `switch` finds a case for the action (line 88); and the call returns. -/
theorem C18_assertions_hold (calls : List (World × ttyhook_action_t)) (w : World)
    (action : ttyhook_action_t) (ha : action ≠ TTYHOOK_NONE) :
    (∀ value, (trigger_calls HookState.init.trigger_state calls).script_file_size = 0 →
      w.getenv = some value → strnlen value 1024 ≠ 1024 → strnlen value 1024 ≠ 0 →
      strnlen value 1024 <
        (memcpy (trigger_calls HookState.init.trigger_state calls).script_file_value value
          (strnlen value 1024)).length ∧
      (memcpy (trigger_calls HookState.init.trigger_state calls).script_file_value value
          (strnlen value 1024)).length = 1024 ∧
      (memcpy (trigger_calls HookState.init.trigger_state calls).script_file_value value
          (strnlen value 1024)).getD (strnlen value 1024) NUL = NUL) ∧
    (trigger_load w (trigger_calls HookState.init.trigger_state calls)).1
      ≠ some Outcome.aborted ∧
    ((trigger_load w (trigger_calls HookState.init.trigger_state calls)).1 = none →
      0 < (trigger_load w
        (trigger_calls HookState.init.trigger_state calls)).2.1.script_file_size) ∧
    script_arguments
      (trigger_load w (trigger_calls HookState.init.trigger_state calls)).2.1.script_file_value
      action ≠ none ∧
    ∃ b, (trigger w (trigger_calls HookState.init.trigger_state calls) action).outcome
      = Outcome.returned b := by
  have hinv := trigger_calls_inv HookState.init.trigger_state init_inv calls
  have hl := trigger_load_inv w _ hinv
  refine ⟨?_, hl.1, hl.2.2, ?_, trigger_returns w _ action hinv ha⟩
  · intro value h0 _ h1024 _
    have hle : strnlen value 1024 ≤ 1024 := by
      unfold strnlen
      omega
    have hlen := memcpy_length value (strnlen value 1024) (strnlen_le_length value 1024) hle
    rw [hinv h0]
    exact ⟨by rw [hlen]; omega, hlen, memcpy_getD_zero value _⟩
  · obtain ⟨command, hcmd⟩ := script_arguments_some
      (trigger_load w (trigger_calls HookState.init.trigger_state calls)).2.1.script_file_value
      action ha
    rw [hcmd]
    exact Option.some_ne_none command

/-- C18, witness: a first call that stores `/usr/local/bin/ptt` checks the
byte at index 18 of the buffer; and after a call with an empty value and one
with the variable absent, a call with that path returns. -/
theorem C18_assertions_hold_witness :
    (strnlen (String.toList "/usr/local/bin/ptt") 1024 <
        (memcpy (trigger_calls HookState.init.trigger_state []).script_file_value
          (String.toList "/usr/local/bin/ptt")
          (strnlen (String.toList "/usr/local/bin/ptt") 1024)).length ∧
      (memcpy (trigger_calls HookState.init.trigger_state []).script_file_value
          (String.toList "/usr/local/bin/ptt")
          (strnlen (String.toList "/usr/local/bin/ptt") 1024)).length = 1024 ∧
      (memcpy (trigger_calls HookState.init.trigger_state []).script_file_value
          (String.toList "/usr/local/bin/ptt")
          (strnlen (String.toList "/usr/local/bin/ptt") 1024)).getD
        (strnlen (String.toList "/usr/local/bin/ptt") 1024) NUL = NUL) ∧
    ∃ b, (trigger (sample_world (some "/usr/local/bin/ptt") 0 0 0)
      (trigger_calls HookState.init.trigger_state
        [(sample_world (some "") 0 0 0, TTYHOOK_RTS_ON),
         (sample_world none 0 0 0, TTYHOOK_DTR_OFF)])
      TTYHOOK_DTR_ON).outcome = Outcome.returned b :=
  ⟨(C18_assertions_hold [] (sample_world (some "/usr/local/bin/ptt") 0 0 0) TTYHOOK_DTR_ON
      (by decide)).1 (String.toList "/usr/local/bin/ptt") rfl rfl (by decide) (by decide),
   (C18_assertions_hold
      [(sample_world (some "") 0 0 0, TTYHOOK_RTS_ON),
       (sample_world none 0 0 0, TTYHOOK_DTR_OFF)]
      (sample_world (some "/usr/local/bin/ptt") 0 0 0) TTYHOOK_DTR_ON (by decide)).2.2.2.2⟩

end TtyHook
